import Mathlib

/-!
# BackendComm: a shared-memory channel wrapper

A shallow embedding of `src/BackendComm.h` (class template `BackendComm<T>`).

* The object state is the record `BackendComm`; every member function is a
  function on that record.
* The operating system (Win32 named file mappings and events, the C++
  steady clock, `sleep_for`, `memcpy` through a mapped pointer) is not part of
  the repository.  It is taken as a parameter: a record `OS W` of operations
  on an arbitrary world type `W`.  Every member function threads the world
  through the calls it makes, in source order.
* `logOS` wraps any `OS` so that each call is recorded; statements about which
  calls a member function issues are made on the recorded log.
* `simOS` is one concrete, executable `OS` (a small simulation of named
  sections, events, views and a clock) used to evaluate the code on concrete
  inputs.
* Handles and pointers are natural numbers, `0` is `NULL`/`nullptr`.
  The payload `T` is represented by its object representation, a list of
  `sizeof(T)` bytes.  Console output (`std::cout`) is not modelled.
-/

namespace SharedMem

abbrev HANDLE := Nat
abbrev DWORD := Nat
abbrev SIZE_T := Nat
abbrev LPVOID := Nat
abbrev Byte := Nat

/-! ## Constants of `windows.h` used by the source -/

/-- The value of `FILE_MAP_WRITE` in the Windows SDK. -/
def FILE_MAP_WRITE : DWORD := 2
/-- The value of `FILE_MAP_READ` in the Windows SDK. -/
def FILE_MAP_READ : DWORD := 4
/-- The value of `PAGE_READWRITE` in the Windows SDK. -/
def PAGE_READWRITE : DWORD := 4
/-- The value of `SYNCHRONIZE` in the Windows SDK. -/
def SYNCHRONIZE : DWORD := 0x00100000
/-- The value of `INFINITE` in the Windows SDK. -/
def INFINITE : DWORD := 0xFFFFFFFF
/-- The value of `INVALID_HANDLE_VALUE`, the pointer `-1` on a 64-bit target. -/
def INVALID_HANDLE_VALUE : HANDLE := 2 ^ 64 - 1
/-- The value of `WAIT_OBJECT_0`: the wait ended because the object was signaled. -/
def WAIT_OBJECT_0 : DWORD := 0
/-- The value of `WAIT_TIMEOUT`: the wait ended because the interval elapsed. -/
def WAIT_TIMEOUT : DWORD := 258
/-- The value of `WAIT_FAILED`. -/
def WAIT_FAILED : DWORD := 0xFFFFFFFF

/-- Ticks of `std::chrono::steady_clock` (nanoseconds) in one millisecond. -/
def ticksPerMs : Int := 1000000

/-! ## Data model (the private members of `BackendComm<T>`) -/

/-- The struct `MapViewConfig`. -/
structure MapViewConfig where
  _accessMode : DWORD
  _fileOffsetH : DWORD
  _fileOffsetL : DWORD
  _nBytes : SIZE_T
  deriving DecidableEq, Repr

/-- The struct `Sender`. -/
structure Sender where
  _hMapOut : HANDLE
  _hEventOut : HANDLE
  deriving DecidableEq, Repr

/-- The struct `OutFileMapConfig`. -/
structure OutFileMapConfig where
  _hFile : HANDLE
  _lpFileMappingAttributes : Nat
  _flProtect : DWORD
  _maxSizeH : DWORD
  _maxSizeL : DWORD
  deriving DecidableEq, Repr

/-- The struct `OutEventConfig`. -/
structure OutEventConfig where
  _lpEventAttributes : Nat
  _manualReset : Bool
  _initialState : Bool
  deriving DecidableEq, Repr

/-- The struct `SenderConfig`. -/
structure SenderConfig where
  _mapConfig : OutFileMapConfig
  _eventConfig : OutEventConfig
  deriving DecidableEq, Repr

/-- The struct `receiver`. -/
structure receiver where
  _hMapIn : HANDLE
  _hEventIn : HANDLE
  deriving DecidableEq, Repr

/-- The struct `receiverConfig`. -/
structure receiverConfig where
  _fileMapAccessMode : DWORD
  _fileMapInheritHandle : Bool
  _eventAccessMode : DWORD
  _eventInheritHandle : Bool
  deriving DecidableEq, Repr

/-- The data members of `BackendComm<T>`. -/
structure BackendComm where
  _senderName : String
  _receiverName : String
  _mapViewConfS : MapViewConfig
  _mapViewConfR : MapViewConfig
  _sender : Sender
  _senderConfig : SenderConfig
  _receiver : receiver
  _receiverConfig : receiverConfig
  _isConnected : Bool
  deriving DecidableEq, Repr

/-- Default member initialiser of `MapViewConfig` (used for `_mapViewConfS`). -/
def MapViewConfig.default (sizeofT : Nat) : MapViewConfig :=
  { _accessMode := FILE_MAP_READ ||| FILE_MAP_WRITE, _fileOffsetH := 0, _fileOffsetL := 0,
    _nBytes := sizeofT }

/-- Initialiser of `_mapViewConfR`: `{ FILE_MAP_READ, 0, 0, sizeof(T) }`. -/
def MapViewConfig.defaultR (sizeofT : Nat) : MapViewConfig :=
  { _accessMode := FILE_MAP_READ, _fileOffsetH := 0, _fileOffsetL := 0, _nBytes := sizeofT }

/-- Default member initialisers of `OutFileMapConfig`. -/
def OutFileMapConfig.default (sizeofT : Nat) : OutFileMapConfig :=
  { _hFile := INVALID_HANDLE_VALUE, _lpFileMappingAttributes := 0, _flProtect := PAGE_READWRITE,
    _maxSizeH := 0, _maxSizeL := sizeofT }

/-- Default member initialisers of `OutEventConfig`. -/
def OutEventConfig.default : OutEventConfig :=
  { _lpEventAttributes := 0, _manualReset := false, _initialState := false }

/-- Default member initialisers of `receiverConfig`. -/
def receiverConfig.default : receiverConfig :=
  { _fileMapAccessMode := FILE_MAP_READ, _fileMapInheritHandle := false,
    _eventAccessMode := SYNCHRONIZE, _eventInheritHandle := false }

/-! ## The operating system as a parameter -/

/-- The external operations the source calls, over a world `W`.
`WaitForSingleObject` returns `none` when the wait never returns. -/
structure OS (W : Type) where
  CreateFileMappingA : HANDLE → Nat → DWORD → DWORD → DWORD → String → W → HANDLE × W
  CreateEventA : Nat → Bool → Bool → String → W → HANDLE × W
  MapViewOfFile : HANDLE → DWORD → DWORD → DWORD → SIZE_T → W → LPVOID × W
  memcpy : LPVOID → List Byte → Nat → W → W
  SetEvent : HANDLE → W → W
  OpenFileMappingA : DWORD → Bool → String → W → HANDLE × W
  OpenEventA : DWORD → Bool → String → W → HANDLE × W
  WaitForSingleObject : HANDLE → DWORD → W → Option (DWORD × W)
  steady_clock_now : W → Int × W
  sleep_for : Int → W → W

/-! ## Resource names -/

/-- The name `outMapName` built in `SetSender`. -/
def outMapName (c : BackendComm) : String := "Global\\Map" ++ c._senderName
/-- The name `outEventName` built in `SetSender`. -/
def outEventName (c : BackendComm) : String := "Global\\Event" ++ c._senderName
/-- The name `inMapName` built in `TryConnect`. -/
def inMapName (c : BackendComm) : String := "Global\\Map" ++ c._receiverName
/-- The name `inEventName` built in `TryConnect`. -/
def inEventName (c : BackendComm) : String := "Global\\Event" ++ c._receiverName

/-- The member function `c_str` of `std::string` as the callee reads it: a
C string ends at its first NUL character. -/
def c_str (s : String) : String :=
  String.mk (s.data.takeWhile (fun ch => ch ≠ Char.ofNat 0))

/-! ## Member functions -/

/-- The member function `SetSender`. -/
def SetSender {W : Type} (os : OS W) (c : BackendComm) (w : W) : BackendComm × W :=
  let mapConf := c._senderConfig._mapConfig
  let eventConf := c._senderConfig._eventConfig
  let r1 := os.CreateFileMappingA mapConf._hFile mapConf._lpFileMappingAttributes
    mapConf._flProtect mapConf._maxSizeH mapConf._maxSizeL (c_str (outMapName c)) w
  let r2 := os.CreateEventA eventConf._lpEventAttributes eventConf._manualReset
    eventConf._initialState (c_str (outEventName c)) r1.2
  ({ c with _sender := { _hMapOut := r1.1, _hEventOut := r2.1 } }, r2.2)

/-- The object as the member initialisers leave it, before the constructor
body runs.  `_sender` and `_receiver` have no initialiser in the source: the
indeterminate initial content of `_receiver` is the argument `uninit`, and
`_sender` (assigned by `SetSender` before any use) starts as null handles. -/
def initial (sizeofT : Nat) (senderName receiverName : String) (uninit : receiver) :
    BackendComm :=
  { _senderName := senderName, _receiverName := receiverName,
    _mapViewConfS := MapViewConfig.default sizeofT,
    _mapViewConfR := MapViewConfig.defaultR sizeofT,
    _sender := { _hMapOut := 0, _hEventOut := 0 },
    _senderConfig := { _mapConfig := OutFileMapConfig.default sizeofT,
                       _eventConfig := OutEventConfig.default },
    _receiver := uninit,
    _receiverConfig := receiverConfig.default,
    _isConnected := false }

/-- The constructor: member initialisation, then `SetSender()`. -/
def construct {W : Type} (os : OS W) (sizeofT : Nat) (senderName receiverName : String)
    (uninit : receiver) (w : W) : BackendComm × W :=
  SetSender os (initial sizeofT senderName receiverName uninit) w

/-- The member function `Send`; `payload` is the object representation of the argument. -/
def Send {W : Type} (os : OS W) (sizeofT : Nat) (c : BackendComm) (payload : List Byte)
    (w : W) : W :=
  let r := os.MapViewOfFile c._sender._hMapOut c._mapViewConfS._accessMode
    c._mapViewConfS._fileOffsetH c._mapViewConfS._fileOffsetL c._mapViewConfS._nBytes w
  if r.1 ≠ 0 then
    os.SetEvent c._sender._hEventOut (os.memcpy r.1 payload sizeofT r.2)
  else
    r.2

/-- The member function `SetSenderViewConfig`. -/
def SetSenderViewConfig (c : BackendComm) (accessMode fileOffsetH fileOffsetL : DWORD)
    (nBytes : SIZE_T) : BackendComm :=
  { c with _mapViewConfS := { _accessMode := accessMode, _fileOffsetH := fileOffsetH,
                              _fileOffsetL := fileOffsetL, _nBytes := nBytes } }

/-- The member function `SetSenderMapConfig`. -/
def SetSenderMapConfig (c : BackendComm) (hFile : HANDLE) (lpFileMappingAttributes : Nat)
    (flProtect maxSizeH maxSizeL : DWORD) : BackendComm :=
  { c with _senderConfig := { c._senderConfig with
      _mapConfig := { _hFile := hFile, _lpFileMappingAttributes := lpFileMappingAttributes,
                      _flProtect := flProtect, _maxSizeH := maxSizeH, _maxSizeL := maxSizeL } } }

/-- The member function `SetSenderEventConfig`. -/
def SetSenderEventConfig (c : BackendComm) (lpEventAttributes : Nat)
    (manualReset initialState : Bool) : BackendComm :=
  { c with _senderConfig := { c._senderConfig with
      _eventConfig := { _lpEventAttributes := lpEventAttributes, _manualReset := manualReset,
                        _initialState := initialState } } }

/-- Lines 172-173: the two open calls of one iteration of `TryConnect`. -/
def openPair {W : Type} (os : OS W) (c : BackendComm) (w : W) : receiver × W :=
  let r1 := os.OpenFileMappingA c._receiverConfig._fileMapAccessMode
    c._receiverConfig._fileMapInheritHandle (c_str (inMapName c)) w
  let r2 := os.OpenEventA c._receiverConfig._eventAccessMode
    c._receiverConfig._eventInheritHandle (c_str (inEventName c)) r1.2
  ({ _hMapIn := r1.1, _hEventIn := r2.1 }, r2.2)

/-- The `while` loop of `TryConnect`, with `fuel` bounding the number of
evaluations of the loop condition; `none` means the bound was reached. -/
def TryConnectLoop {W : Type} (os : OS W) (deadline : Int) (iterDelay : Int) :
    Nat → BackendComm → W → Option (Bool × BackendComm × W)
  | 0, _, _ => none
  | fuel + 1, c, w =>
    let t := os.steady_clock_now w
    if t.1 < deadline then
      let r := openPair os c t.2
      let c1 := { c with _receiver := r.1 }
      if r.1._hMapIn = 0 ∨ r.1._hEventIn = 0 then
        TryConnectLoop os deadline iterDelay fuel c1 (os.sleep_for iterDelay r.2)
      else
        some (true, { c1 with _isConnected := true }, r.2)
    else
      some (false, c, t.2)

/-- The member function `TryConnect`.  Durations are in milliseconds, clock
readings in ticks.  The source forms the deadline in double precision; the
sum is taken exactly here. -/
def TryConnect {W : Type} (os : OS W) (timeout iterDelay : Int) (fuel : Nat)
    (c : BackendComm) (w : W) : Option (Bool × BackendComm × W) :=
  let start := os.steady_clock_now w
  let deadline := start.1 + timeout * ticksPerMs
  TryConnectLoop os deadline iterDelay fuel c start.2

/-- The member function `isConnected`. -/
def isConnected (c : BackendComm) : Bool := c._isConnected

/-- The member function `ReceivePoint`: the returned pointer and the world. -/
def ReceivePoint {W : Type} (os : OS W) (c : BackendComm) (w : W) : LPVOID × W :=
  os.MapViewOfFile c._receiver._hMapIn c._mapViewConfR._accessMode
    c._mapViewConfR._fileOffsetH c._mapViewConfR._fileOffsetL c._mapViewConfR._nBytes w

/-- The member function `WaitObject`.  The parameter `milliseconds` is not used
by the body, which passes `INFINITE`. -/
def WaitObject {W : Type} (os : OS W) (c : BackendComm) (_milliseconds : DWORD) (w : W) :
    Option (DWORD × W) :=
  os.WaitForSingleObject c._receiver._hEventIn INFINITE w

/-- The member function `SetreceiverViewConfig`. -/
def SetreceiverViewConfig (c : BackendComm) (accessMode fileOffsetH fileOffsetL : DWORD)
    (nBytes : SIZE_T) : BackendComm :=
  { c with _mapViewConfR := { _accessMode := accessMode, _fileOffsetH := fileOffsetH,
                              _fileOffsetL := fileOffsetL, _nBytes := nBytes } }

/-- The member function `SetreceiverMapConfig`. -/
def SetreceiverMapConfig (c : BackendComm) (fileMapAccessMode : DWORD)
    (fileMapInheritHandle : Bool) : BackendComm :=
  { c with _receiverConfig := { c._receiverConfig with
      _fileMapAccessMode := fileMapAccessMode, _fileMapInheritHandle := fileMapInheritHandle } }

/-- The member function `SetreceiverEventConfig`. -/
def SetreceiverEventConfig (c : BackendComm) (eventAccessMode : DWORD)
    (eventInheritHandle : Bool) : BackendComm :=
  { c with _receiverConfig := { c._receiverConfig with
      _eventAccessMode := eventAccessMode, _eventInheritHandle := eventInheritHandle } }

/-! ## Sequences of public operations -/

/-- One call of a public member function, with its arguments. -/
inductive Op
  | SetSender
  | Send (payload : List Byte)
  | SetSenderViewConfig (accessMode fileOffsetH fileOffsetL : DWORD) (nBytes : SIZE_T)
  | SetSenderMapConfig (hFile : HANDLE) (lpFileMappingAttributes : Nat)
      (flProtect maxSizeH maxSizeL : DWORD)
  | SetSenderEventConfig (lpEventAttributes : Nat) (manualReset initialState : Bool)
  | TryConnect (timeout iterDelay : Int)
  | isConnected
  | SetreceiverViewConfig (accessMode fileOffsetH fileOffsetL : DWORD) (nBytes : SIZE_T)
  | SetreceiverMapConfig (fileMapAccessMode : DWORD) (fileMapInheritHandle : Bool)
  | SetreceiverEventConfig (eventAccessMode : DWORD) (eventInheritHandle : Bool)
  | ReceivePoint
  | WaitObject (milliseconds : DWORD)
  deriving DecidableEq, Repr

/-- Whether the operation is a call of `TryConnect`. -/
def Op.isTryConnect : Op → Bool
  | Op.TryConnect _ _ => true
  | _ => false

/-- The effect of one public call on the object and the world; `none` when the
call does not return (a wait that never ends, or a `TryConnect` loop that
exceeds `fuel` evaluations of its condition). -/
def step {W : Type} (os : OS W) (sizeofT fuel : Nat) (op : Op) (s : BackendComm × W) :
    Option (BackendComm × W) :=
  match op with
  | Op.SetSender => some (SetSender os s.1 s.2)
  | Op.Send payload => some (s.1, Send os sizeofT s.1 payload s.2)
  | Op.SetSenderViewConfig a oh ol n => some (SetSenderViewConfig s.1 a oh ol n, s.2)
  | Op.SetSenderMapConfig hf sa fl mh ml => some (SetSenderMapConfig s.1 hf sa fl mh ml, s.2)
  | Op.SetSenderEventConfig sa mr ist => some (SetSenderEventConfig s.1 sa mr ist, s.2)
  | Op.TryConnect timeout iterDelay =>
    (TryConnect os timeout iterDelay fuel s.1 s.2).map (fun r => r.2)
  | Op.isConnected => some s
  | Op.SetreceiverViewConfig a oh ol n => some (SetreceiverViewConfig s.1 a oh ol n, s.2)
  | Op.SetreceiverMapConfig a ih => some (SetreceiverMapConfig s.1 a ih, s.2)
  | Op.SetreceiverEventConfig a ih => some (SetreceiverEventConfig s.1 a ih, s.2)
  | Op.ReceivePoint => some (s.1, (ReceivePoint os s.1 s.2).2)
  | Op.WaitObject ms => (WaitObject os s.1 ms s.2).map (fun r => (s.1, r.2))

/-- A sequence of public calls, executed in order. -/
def run {W : Type} (os : OS W) (sizeofT fuel : Nat) :
    List Op → BackendComm × W → Option (BackendComm × W)
  | [], s => some s
  | op :: rest, s =>
    match step os sizeofT fuel op s with
    | none => none
    | some s1 => run os sizeofT fuel rest s1

/-- No `TryConnect` of the sequence is called on an endpoint that is already connected. -/
def NoReconnect {W : Type} (os : OS W) (sizeofT fuel : Nat) :
    List Op → BackendComm × W → Bool
  | [], _ => true
  | op :: rest, s =>
    (!op.isTryConnect || !s.1._isConnected) &&
    match step os sizeofT fuel op s with
    | none => true
    | some s1 => NoReconnect os sizeofT fuel rest s1

/-- The world at the start of iteration `k` of the `TryConnect` loop, when the
`k` iterations before it all ran and failed to open the pair. -/
def retryWorld {W : Type} (os : OS W) (c : BackendComm) (iterDelay : Int) : Nat → W → W
  | 0, w => w
  | k + 1, w =>
    retryWorld os c iterDelay k
      (os.sleep_for iterDelay (openPair os c (os.steady_clock_now w).2).2)

/-- Iteration `k` of the loop begins before the deadline. -/
def beginsBefore {W : Type} (os : OS W) (c : BackendComm) (iterDelay deadline : Int)
    (k : Nat) (w : W) : Prop :=
  (os.steady_clock_now (retryWorld os c iterDelay k w)).1 < deadline

/-- The handles opened by iteration `k` of the loop. -/
def openedAt {W : Type} (os : OS W) (c : BackendComm) (iterDelay : Int) (k : Nat) (w : W) :
    receiver :=
  (openPair os c (os.steady_clock_now (retryWorld os c iterDelay k w)).2).1

/-- Both handles of a pair are valid (not `nullptr`). -/
def receiver.valid (r : receiver) : Prop := r._hMapIn ≠ 0 ∧ r._hEventIn ≠ 0

instance (r : receiver) : Decidable r.valid := by
  unfold receiver.valid; exact inferInstance

/-! ## Recording the calls made to the operating system -/

/-- One external call, with its arguments and its result. -/
inductive Call
  | CreateFileMappingA (hFile : HANDLE) (attrs : Nat) (flProtect maxSizeH maxSizeL : DWORD)
      (name : String) (result : HANDLE)
  | CreateEventA (attrs : Nat) (manualReset initialState : Bool) (name : String)
      (result : HANDLE)
  | MapViewOfFile (h : HANDLE) (access offsetH offsetL : DWORD) (n : SIZE_T) (result : LPVOID)
  | memcpy (dest : LPVOID) (src : List Byte) (count : Nat)
  | SetEvent (h : HANDLE)
  | OpenFileMappingA (access : DWORD) (inherit : Bool) (name : String) (result : HANDLE)
  | OpenEventA (access : DWORD) (inherit : Bool) (name : String) (result : HANDLE)
  | WaitForSingleObject (h : HANDLE) (ms : DWORD) (result : DWORD)
  | steady_clock_now (result : Int)
  | sleep_for (d : Int)
  deriving DecidableEq, Repr

/-- Whether the call is a `sleep_for`. -/
def Call.isSleep : Call → Bool
  | Call.sleep_for _ => true
  | _ => false

/-- Whether the call is a `SetEvent`. -/
def Call.isSetEvent : Call → Bool
  | Call.SetEvent _ => true
  | _ => false

/-- Whether the call is a `memcpy`. -/
def Call.isMemcpy : Call → Bool
  | Call.memcpy _ _ _ => true
  | _ => false

/-- The same operating system, with every call appended to a log. -/
def logOS {W : Type} (os : OS W) : OS (W × List Call) where
  CreateFileMappingA hf sa fl mh ml name s :=
    let r := os.CreateFileMappingA hf sa fl mh ml name s.1
    (r.1, r.2, s.2 ++ [Call.CreateFileMappingA hf sa fl mh ml name r.1])
  CreateEventA sa mr ist name s :=
    let r := os.CreateEventA sa mr ist name s.1
    (r.1, r.2, s.2 ++ [Call.CreateEventA sa mr ist name r.1])
  MapViewOfFile h a oh ol n s :=
    let r := os.MapViewOfFile h a oh ol n s.1
    (r.1, r.2, s.2 ++ [Call.MapViewOfFile h a oh ol n r.1])
  memcpy dest src n s := (os.memcpy dest src n s.1, s.2 ++ [Call.memcpy dest src n])
  SetEvent h s := (os.SetEvent h s.1, s.2 ++ [Call.SetEvent h])
  OpenFileMappingA a ih name s :=
    let r := os.OpenFileMappingA a ih name s.1
    (r.1, r.2, s.2 ++ [Call.OpenFileMappingA a ih name r.1])
  OpenEventA a ih name s :=
    let r := os.OpenEventA a ih name s.1
    (r.1, r.2, s.2 ++ [Call.OpenEventA a ih name r.1])
  WaitForSingleObject h ms s :=
    (os.WaitForSingleObject h ms s.1).map
      (fun r => (r.1, r.2, s.2 ++ [Call.WaitForSingleObject h ms r.1]))
  steady_clock_now s :=
    let r := os.steady_clock_now s.1
    (r.1, r.2, s.2 ++ [Call.steady_clock_now r.1])
  sleep_for d s := (os.sleep_for d s.1, s.2 ++ [Call.sleep_for d])

/-! ## A simulated operating system

A small executable world: named sections (file mappings) holding bytes, named
events, a handle table, a table of mapped views, a clock that advances only
while a thread sleeps or waits, and a schedule of mapping failures.  Access
rights and security attributes are not modelled. -/

/-- An entry of the handle table: the kind and the name of the object. -/
structure SimHandle where
  isEvent : Bool
  name : String
  deriving DecidableEq, Repr

/-- A named event: `manualReset` flag and current state. -/
structure SimEvent where
  name : String
  manualReset : Bool
  signaled : Bool
  deriving DecidableEq, Repr

/-- A mapped view: the section it maps, its first byte and its length. -/
structure SimView where
  name : String
  offset : Nat
  length : Nat
  deriving DecidableEq, Repr

/-- The simulated world.  Handle `k + 1` is entry `k` of `handles`, pointer
`k + 1` is the base of entry `k` of `views`.  Each `MapViewOfFile` consumes the
head of `mapFaults`; `true` makes that call fail (as when the address space
of the caller is exhausted).  Each `OpenFileMappingA` and `OpenEventA`
consumes the head of `openFaults`; `true` makes that call fail (as when the
requested access is denied). -/
structure SimWorld where
  clock : Int
  sections : List (String × List Byte)
  events : List SimEvent
  handles : List SimHandle
  views : List SimView
  mapFaults : List Bool
  openFaults : List Bool
  deriving DecidableEq, Repr

/-- The bytes of the section with the given name. -/
def findSection (name : String) : List (String × List Byte) → Option (List Byte)
  | [] => none
  | (n, b) :: rest => if n = name then some b else findSection name rest

/-- Replaces the bytes of the section with the given name. -/
def setSection (name : String) (bs : List Byte) :
    List (String × List Byte) → List (String × List Byte)
  | [] => []
  | (n, b) :: rest =>
    if n = name then (n, bs) :: rest else (n, b) :: setSection name bs rest

/-- The event with the given name. -/
def findEvent (name : String) : List SimEvent → Option SimEvent
  | [] => none
  | e :: rest => if e.name = name then some e else findEvent name rest

/-- Sets the state of the event with the given name. -/
def setEvent (name : String) (sig : Bool) : List SimEvent → List SimEvent
  | [] => []
  | e :: rest =>
    if e.name = name then { e with signaled := sig } :: rest
    else e :: setEvent name sig rest

/-- The object behind a handle; `0` and unknown values denote nothing. -/
def SimWorld.handle (w : SimWorld) (h : HANDLE) : Option SimHandle :=
  if h = 0 then none else w.handles[h - 1]?

/-- The view whose base address is the pointer. -/
def SimWorld.view (w : SimWorld) (p : LPVOID) : Option SimView :=
  if p = 0 then none else w.views[p - 1]?

/-- Overwrites `bs` from position `off` with `data`, keeping the length of `bs`. -/
def writeAt (bs : List Byte) (off : Nat) (data : List Byte) : List Byte :=
  (bs.take off ++ data ++ bs.drop (off + data.length)).take bs.length

/-- Adds a handle table entry and returns the new handle. -/
def SimWorld.newHandle (w : SimWorld) (isEvent : Bool) (name : String) : HANDLE × SimWorld :=
  (w.handles.length + 1, { w with handles := w.handles ++ [{ isEvent := isEvent, name := name }] })

/-- Simulated `CreateFileMappingA`: opens the section if the name exists,
creates it zero-filled with `maxSizeH * 2^32 + maxSizeL` bytes otherwise;
fails on a size of zero or when the name denotes an event. -/
def simCreateFileMappingA (_hFile : HANDLE) (_attrs : Nat) (_flProtect maxSizeH maxSizeL : DWORD)
    (name : String) (w : SimWorld) : HANDLE × SimWorld :=
  match findEvent name w.events with
  | some _ => (0, w)
  | none =>
    match findSection name w.sections with
    | some _ => w.newHandle false name
    | none =>
      if maxSizeH * 2 ^ 32 + maxSizeL = 0 then (0, w)
      else
        SimWorld.newHandle
          { w with sections := w.sections ++ [(name, List.replicate (maxSizeH * 2 ^ 32 + maxSizeL) 0)] }
          false name

/-- Simulated `CreateEventA`: opens the event if the name exists, creates it
otherwise; fails when the name denotes a section. -/
def simCreateEventA (_attrs : Nat) (manualReset initialState : Bool) (name : String)
    (w : SimWorld) : HANDLE × SimWorld :=
  match findSection name w.sections with
  | some _ => (0, w)
  | none =>
    match findEvent name w.events with
    | some _ => w.newHandle true name
    | none =>
      SimWorld.newHandle
        { w with events := w.events ++
            [{ name := name, manualReset := manualReset, signaled := initialState }] }
        true name

/-- Simulated `OpenFileMappingA`: `NULL` when the fault schedule says so or
when no section of that name exists. -/
def simOpenFileMappingA (_access : DWORD) (_inherit : Bool) (name : String) (w : SimWorld) :
    HANDLE × SimWorld :=
  let w1 := { w with openFaults := w.openFaults.tail }
  if w.openFaults.head? = some true then (0, w1)
  else
    match findSection name w.sections with
    | some _ => w1.newHandle false name
    | none => (0, w1)

/-- Simulated `OpenEventA`: `NULL` when the fault schedule says so or when no
event of that name exists. -/
def simOpenEventA (_access : DWORD) (_inherit : Bool) (name : String) (w : SimWorld) :
    HANDLE × SimWorld :=
  let w1 := { w with openFaults := w.openFaults.tail }
  if w.openFaults.head? = some true then (0, w1)
  else
    match findEvent name w.events with
    | some _ => w1.newHandle true name
    | none => (0, w1)

/-- The view requested from a section of `size` bytes: offset
`offsetH * 2^32 + offsetL`, and `n` bytes (to the end of the section when `n = 0`);
`none` when it does not fit. -/
def viewRange (size : Nat) (offsetH offsetL : DWORD) (n : SIZE_T) : Option (Nat × Nat) :=
  let off := offsetH * 2 ^ 32 + offsetL
  let len := if n = 0 then size - off else n
  if off + len ≤ size then some (off, len) else none

/-- Simulated `MapViewOfFile`: fails when the fault schedule says so, when the
handle is not a section handle, or when the range does not fit the section. -/
def simMapViewOfFile (h : HANDLE) (_access offsetH offsetL : DWORD) (n : SIZE_T)
    (w : SimWorld) : LPVOID × SimWorld :=
  let w1 := { w with mapFaults := w.mapFaults.tail }
  if w.mapFaults.head? = some true then (0, w1)
  else
    match w.handle h with
    | some hd =>
      if hd.isEvent then (0, w1)
      else
        match findSection hd.name w.sections with
        | some bs =>
          match viewRange bs.length offsetH offsetL n with
          | some r =>
            (w.views.length + 1,
              { w1 with views := w.views ++ [{ name := hd.name, offset := r.1, length := r.2 }] })
          | none => (0, w1)
        | none => (0, w1)
    | none => (0, w1)

/-- Simulated `memcpy` of `count` bytes of `src` to the base of a view. -/
def simMemcpy (dest : LPVOID) (src : List Byte) (count : Nat) (w : SimWorld) : SimWorld :=
  match w.view dest with
  | some v =>
    match findSection v.name w.sections with
    | some bs =>
      { w with sections := setSection v.name (writeAt bs v.offset (src.take count)) w.sections }
    | none => w
  | none => w

/-- Simulated `SetEvent`. -/
def simSetEvent (h : HANDLE) (w : SimWorld) : SimWorld :=
  match w.handle h with
  | some hd => if hd.isEvent then { w with events := setEvent hd.name true w.events } else w
  | none => w

/-- Simulated `WaitForSingleObject` on an event, no other thread running: a
signaled event ends the wait at once (and is reset unless manual-reset); an
unsignaled one ends it after `ms` milliseconds with `WAIT_TIMEOUT`, or never
when `ms` is `INFINITE`. -/
def simWaitForSingleObject (h : HANDLE) (ms : DWORD) (w : SimWorld) : Option (DWORD × SimWorld) :=
  match w.handle h with
  | some hd =>
    if hd.isEvent then
      match findEvent hd.name w.events with
      | some e =>
        if e.signaled then
          some (WAIT_OBJECT_0,
            if e.manualReset then w else { w with events := setEvent hd.name false w.events })
        else if ms = INFINITE then none
        else some (WAIT_TIMEOUT, { w with clock := w.clock + (ms : Int) * ticksPerMs })
      | none => some (WAIT_FAILED, w)
    else some (WAIT_FAILED, w)
  | none => some (WAIT_FAILED, w)

/-- Simulated `sleep_for`: the clock advances by the duration (not at all for
a duration that is not positive). -/
def simSleepFor (d : Int) (w : SimWorld) : SimWorld :=
  { w with clock := w.clock + max d 0 * ticksPerMs }

/-- The simulated operating system. -/
def simOS : OS SimWorld where
  CreateFileMappingA := simCreateFileMappingA
  CreateEventA := simCreateEventA
  MapViewOfFile := simMapViewOfFile
  memcpy := simMemcpy
  SetEvent := simSetEvent
  OpenFileMappingA := simOpenFileMappingA
  OpenEventA := simOpenEventA
  WaitForSingleObject := simWaitForSingleObject
  steady_clock_now w := (w.clock, w)
  sleep_for := simSleepFor

/-- The first `n` bytes seen through a pointer returned by `MapViewOfFile`. -/
def readView (w : SimWorld) (p : LPVOID) (n : Nat) : Option (List Byte) :=
  match w.view p with
  | some v =>
    match findSection v.name w.sections with
    | some bs => some ((bs.drop v.offset).take n)
    | none => none
  | none => none

/-- A world with no object, no handle and no view, at clock reading `0`. -/
def emptyWorld : SimWorld :=
  { clock := 0, sections := [], events := [], handles := [], views := [], mapFaults := [],
    openFaults := [] }

/-- The state of the event behind a handle. -/
def signaledOf (w : SimWorld) (h : HANDLE) : Option Bool :=
  match w.handle h with
  | some hd => if hd.isEvent then (findEvent hd.name w.events).map (fun e => e.signaled) else none
  | none => none

/-- A call applied to the simulated world, whichever thread makes it (the
recorded result is not used; a wait that never returns changes nothing). -/
def simApply (call : Call) (w : SimWorld) : SimWorld :=
  match call with
  | Call.CreateFileMappingA hf sa fl mh ml name _ => (simCreateFileMappingA hf sa fl mh ml name w).2
  | Call.CreateEventA sa mr ist name _ => (simCreateEventA sa mr ist name w).2
  | Call.MapViewOfFile h a oh ol n _ => (simMapViewOfFile h a oh ol n w).2
  | Call.memcpy dest src n => simMemcpy dest src n w
  | Call.SetEvent h => simSetEvent h w
  | Call.OpenFileMappingA a ih name _ => (simOpenFileMappingA a ih name w).2
  | Call.OpenEventA a ih name _ => (simOpenEventA a ih name w).2
  | Call.WaitForSingleObject h ms _ =>
    match simWaitForSingleObject h ms w with
    | some r => r.2
    | none => w
  | Call.steady_clock_now _ => w
  | Call.sleep_for d => simSleepFor d w

/-- World `w2` is reached from `w1` by some finite sequence of calls. -/
def Later (w1 w2 : SimWorld) : Prop :=
  ∃ calls : List Call, w2 = calls.foldl (fun w call => simApply call w) w1

/-! ## Concrete endpoints used to evaluate the code -/

/-- A publisher for channel `chan` (payload of 4 bytes) built in the empty world. -/
def demoPub : BackendComm × SimWorld :=
  construct simOS 4 "chan" "none" { _hMapIn := 0, _hEventIn := 0 } emptyWorld

/-- A subscriber for channel `chan`, built after the publisher. -/
def demoSub : BackendComm × SimWorld :=
  construct simOS 4 "x" "chan" { _hMapIn := 0, _hEventIn := 0 } demoPub.2

/-- The subscriber after `TryConnect(100 ms, 10 ms)` returned `true`. -/
def demoConn : BackendComm × SimWorld :=
  match TryConnect simOS 100 10 1 demoSub.1 demoSub.2 with
  | some r => r.2
  | none => demoSub

/-- Iteration `k` of the `TryConnect` loop is executed: the iterations before
it began before the deadline and failed to open a valid pair, and iteration
`k` itself begins before the deadline. -/
def iterationRuns {W : Type} (os : OS W) (c : BackendComm) (iterDelay deadline : Int)
    (k : Nat) (w : W) : Prop :=
  (∀ j, j < k → beginsBefore os c iterDelay deadline j w ∧ ¬ (openedAt os c iterDelay j w).valid) ∧
    beginsBefore os c iterDelay deadline k w

/-- The invariant of a connected endpoint: both stored receiver handles are valid. -/
def ConnectedValid (c : BackendComm) : Prop :=
  isConnected c = true → c._receiver.valid

instance (c : BackendComm) : Decidable (ConnectedValid c) := by
  unfold ConnectedValid; exact inferInstance

/-- An endpoint that publishes and subscribes on the same channel `chan`. -/
def demoLoop : BackendComm × SimWorld :=
  construct simOS 4 "chan" "chan" { _hMapIn := 0, _hEventIn := 0 } emptyWorld

/-- The endpoint `demoLoop` after `TryConnect(100 ms, 10 ms)` returned `true`. -/
def demoLoopConn : BackendComm × SimWorld :=
  match TryConnect simOS 100 10 1 demoLoop.1 demoLoop.2 with
  | some r => r.2
  | none => demoLoop

/-- A sequence of public calls issued on the connected endpoint `demoLoopConn`. -/
def demoOps : List Op :=
  [Op.SetSender, Op.Send [1, 2, 3, 4], Op.SetSenderViewConfig 6 0 0 2,
   Op.SetSenderMapConfig 0 0 4 0 8, Op.SetSenderEventConfig 0 true true,
   Op.TryConnect 0 10, Op.TryConnect 100 10, Op.isConnected,
   Op.SetreceiverViewConfig 4 0 0 2, Op.SetreceiverMapConfig 4 true,
   Op.SetreceiverEventConfig 1048576 true, Op.ReceivePoint, Op.WaitObject 5]

/-- The subscriber and the world after `demoOps`. -/
def demoAfterOps : BackendComm × SimWorld :=
  match run simOS 4 3 demoOps demoLoopConn with
  | some r => r
  | none => demoLoopConn

/-- A sequence of public calls on a fresh endpoint with a single `TryConnect`. -/
def demoOpsOnce : List Op :=
  [Op.SetreceiverMapConfig 4 false, Op.TryConnect 100 10, Op.Send [1, 2, 3, 4],
   Op.SetreceiverViewConfig 4 0 0 2, Op.ReceivePoint]

/-- The subscriber and the world after `demoOpsOnce`. -/
def demoAfterOnce : BackendComm × SimWorld :=
  match run simOS 4 3 demoOpsOnce demoSub with
  | some r => r
  | none => demoSub

/-- The world of `demoSub` in which the third open call from now on is refused. -/
def faultyWorld : SimWorld :=
  { demoSub.2 with openFaults := [false, false, true] }

/-- The subscriber after `TryConnect(100 ms, 10 ms)` and then `TryConnect(1 ms, 1 ms)`
in `faultyWorld`. -/
def demoReconnect : Option (BackendComm × SimWorld) :=
  run simOS 4 3 [Op.TryConnect 100 10, Op.TryConnect 1 1] (demoSub.1, faultyWorld)

/-- The calls made by the constructor of `demoSub` and by its `TryConnect`. -/
def demoSubCalls : List Call :=
  match TryConnect (logOS simOS) 100 10 1
      (construct (logOS simOS) 4 "x" "chan" { _hMapIn := 0, _hEventIn := 0 } (demoPub.2, [])).1
      (construct (logOS simOS) 4 "x" "chan" { _hMapIn := 0, _hEventIn := 0 } (demoPub.2, [])).2 with
  | some r => r.2.2.2
  | none => []

/-- The world after the publisher sent the payload `[1, 2, 3, 4]`. -/
def demoSent : SimWorld := Send simOS 4 demoPub.1 [1, 2, 3, 4] demoConn.2

/-- The world after the subscriber's wait on `demoSent` returned. -/
def demoWaited : SimWorld :=
  match WaitObject simOS demoConn.1 5 demoSent with
  | some r => r.2
  | none => demoSent

/-- A publisher for channel `chan` in a world whose second `MapViewOfFile` fails. -/
def stalePub : BackendComm × SimWorld :=
  construct simOS 4 "chan" "none" { _hMapIn := 0, _hEventIn := 0 }
    { emptyWorld with mapFaults := [false, true] }

/-- A subscriber for channel `chan`, built after `stalePub`. -/
def staleSub : BackendComm × SimWorld :=
  construct simOS 4 "x" "chan" { _hMapIn := 0, _hEventIn := 0 } stalePub.2

/-- The subscriber `staleSub` after `TryConnect(100 ms, 10 ms)`. -/
def staleConn : BackendComm × SimWorld :=
  match TryConnect simOS 100 10 1 staleSub.1 staleSub.2 with
  | some r => r.2
  | none => staleSub

/-- The world after `Send([9,9,9,9])` and then `Send([1,2,3,4])` by `stalePub`. -/
def staleSent : SimWorld :=
  Send simOS 4 stalePub.1 [1, 2, 3, 4] (Send simOS 4 stalePub.1 [9, 9, 9, 9] staleConn.2)

/-- The world after the subscriber's wait on `staleSent` returned. -/
def staleWaited : SimWorld :=
  match WaitObject simOS staleConn.1 5 staleSent with
  | some r => r.2
  | none => staleSent

/-- The world after a single `Send([1,2,3,4])` by `stalePub` and the subscriber's wait. -/
def nullWaited : SimWorld :=
  match WaitObject simOS staleConn.1 5 (Send simOS 4 stalePub.1 [1, 2, 3, 4] staleConn.2) with
  | some r => r.2
  | none => staleConn.2

/-- The string contains no NUL character. -/
def NulFree (s : String) : Prop := Char.ofNat 0 ∉ s.data

instance (s : String) : Decidable (NulFree s) := by
  unfold NulFree; exact inferInstance

/-- The channel name made of `a`, a NUL character and `b`. -/
def nulNameB : String := "a" ++ String.mk [Char.ofNat 0] ++ "b"

/-- The channel name made of `a`, a NUL character and `c`. -/
def nulNameC : String := "a" ++ String.mk [Char.ofNat 0] ++ "c"

/-- A publisher for the channel name `nulNameB`, built in the empty world. -/
def nulPub : BackendComm × SimWorld :=
  construct simOS 4 nulNameB "none" { _hMapIn := 0, _hEventIn := 0 } emptyWorld

/-- A subscriber for the channel name `nulNameC`, built after `nulPub`. -/
def nulSub : BackendComm × SimWorld :=
  construct simOS 4 "x" nulNameC { _hMapIn := 0, _hEventIn := 0 } nulPub.2

/-- The largest reading of `std::chrono::steady_clock`, whose tick count is a
signed 64-bit integer. -/
def clockMax : Int := 2 ^ 63 - 1

/-- The value of `milliseconds::max()`, the default timeout of `TryConnect`. -/
def millisecondsMax : Int := 2 ^ 63 - 1

/-- The simulated operating system with a 64-bit clock: a reading never
exceeds `clockMax`. -/
def simOS64 : OS SimWorld :=
  { simOS with steady_clock_now := fun w => (min w.clock clockMax, w) }

/-- A clock that paces the loop of `TryConnect`: reading it leaves the world
as it is, and one failed iteration begun before the deadline (the two opens and
the sleep) moves the reading forward by at least `q` and at most `Q` ticks.
When the clock advances exactly by the poll interval on each sleep, `q` and
`Q` are both the poll interval. -/
def PacedClock {W : Type} (os : OS W) (c : BackendComm) (iterDelay deadline q Q : Int) : Prop :=
  (∀ w, (os.steady_clock_now w).2 = w) ∧
  (∀ w, (os.steady_clock_now w).1 < deadline →
    q ≤ (os.steady_clock_now (os.sleep_for iterDelay (openPair os c w).2)).1 -
        (os.steady_clock_now w).1 ∧
    (os.steady_clock_now (os.sleep_for iterDelay (openPair os c w).2)).1 -
        (os.steady_clock_now w).1 ≤ Q)

/-! ## Theorems -/

theorem str_append_left_cancel (p a b : String) (h : p ++ a = p ++ b) : a = b := by
  have h2 := congrArg String.data h
  simp only [String.data_append] at h2
  exact String.ext (List.append_cancel_left h2)

theorem c_str_of_nulFree (s : String) (h : NulFree s) : c_str s = s := by
  unfold c_str
  have : s.data.takeWhile (fun ch => ch ≠ Char.ofNat 0) = s.data := by
    rw [List.takeWhile_eq_self_iff]
    intro x hx
    simp only [ne_eq, decide_not, Bool.not_eq_true', decide_eq_false_iff_not]
    intro hx0
    exact h (hx0 ▸ hx)
  rw [this]

theorem nulFree_append (a b : String) (ha : NulFree a) (hb : NulFree b) : NulFree (a ++ b) := by
  unfold NulFree at *
  rw [String.data_append, List.mem_append]
  rintro (h | h)
  · exact ha h
  · exact hb h

/-- C7 (amended resource naming): for every channel name, the segment name
is the namespace scope `Global\\` followed by `Map` followed by the name, and
the signal name is the same scope followed by `Event` followed by the name, on
the publisher side (from `_senderName`) and on the subscriber side (from
`_receiverName`) alike; when neither channel name contains a NUL character,
these are the names `SetSender` hands to `CreateFileMappingA`/`CreateEventA`
and an iteration of `TryConnect` hands to `OpenFileMappingA`/`OpenEventA`, and
the two sides hand over the same pair of names if and only if the sender name
of the one equals the receiver name of the other. -/
theorem resource_names {W : Type} (os : OS W) (p s : BackendComm) (w : W)
    (hp : NulFree p._senderName) (hs : NulFree s._receiverName) :
    outMapName p = "Global\\" ++ ("Map" ++ p._senderName) ∧
    outEventName p = "Global\\" ++ ("Event" ++ p._senderName) ∧
    inMapName s = "Global\\" ++ ("Map" ++ s._receiverName) ∧
    inEventName s = "Global\\" ++ ("Event" ++ s._receiverName) ∧
    ((c_str (outMapName p) = c_str (inMapName s) ∧
        c_str (outEventName p) = c_str (inEventName s)) ↔
      p._senderName = s._receiverName) ∧
    (∃ h1 h2, (SetSender (logOS os) p (w, [])).2.2 =
      [Call.CreateFileMappingA p._senderConfig._mapConfig._hFile
          p._senderConfig._mapConfig._lpFileMappingAttributes
          p._senderConfig._mapConfig._flProtect p._senderConfig._mapConfig._maxSizeH
          p._senderConfig._mapConfig._maxSizeL ("Global\\" ++ ("Map" ++ p._senderName)) h1,
        Call.CreateEventA p._senderConfig._eventConfig._lpEventAttributes
          p._senderConfig._eventConfig._manualReset p._senderConfig._eventConfig._initialState
          ("Global\\" ++ ("Event" ++ p._senderName)) h2]) ∧
    (∃ h1 h2, (openPair (logOS os) s (w, [])).2.2 =
      [Call.OpenFileMappingA s._receiverConfig._fileMapAccessMode
          s._receiverConfig._fileMapInheritHandle ("Global\\" ++ ("Map" ++ s._receiverName)) h1,
        Call.OpenEventA s._receiverConfig._eventAccessMode
          s._receiverConfig._eventInheritHandle
          ("Global\\" ++ ("Event" ++ s._receiverName)) h2]) := by
  have e1 : ∀ n : String, "Global\\Map" ++ n = "Global\\" ++ ("Map" ++ n) := by
    intro n; rw [← String.append_assoc]; rfl
  have e2 : ∀ n : String, "Global\\Event" ++ n = "Global\\" ++ ("Event" ++ n) := by
    intro n; rw [← String.append_assoc]; rfl
  have c1 : ∀ n : String, NulFree n → c_str ("Global\\Map" ++ n) = "Global\\Map" ++ n :=
    fun n hn => c_str_of_nulFree _ (nulFree_append _ _ (by decide) hn)
  have c2 : ∀ n : String, NulFree n → c_str ("Global\\Event" ++ n) = "Global\\Event" ++ n :=
    fun n hn => c_str_of_nulFree _ (nulFree_append _ _ (by decide) hn)
  have d1 : ∀ n : String, NulFree n →
      c_str ("Global\\" ++ ("Map" ++ n)) = "Global\\" ++ ("Map" ++ n) := by
    intro n hn; rw [← e1]; exact c1 n hn
  have d2 : ∀ n : String, NulFree n →
      c_str ("Global\\" ++ ("Event" ++ n)) = "Global\\" ++ ("Event" ++ n) := by
    intro n hn; rw [← e2]; exact c2 n hn
  refine ⟨e1 _, e2 _, e1 _, e2 _, ?_, ?_, ?_⟩
  · simp only [outMapName, inMapName, outEventName, inEventName, c1 _ hp, c1 _ hs, c2 _ hp,
      c2 _ hs]
    constructor
    · rintro ⟨h, _⟩
      exact str_append_left_cancel _ _ _ h
    · intro h
      simp [h]
  · simp only [SetSender, logOS, outMapName, outEventName, e1, e2, d1 _ hp, d2 _ hp]
    exact ⟨_, _, rfl⟩
  · simp only [openPair, logOS, inMapName, inEventName, e1, e2, d1 _ hs, d2 _ hs]
    exact ⟨_, _, rfl⟩

/-- Witness of C7 (amended): the statement at the simulated publisher and
subscriber of channel `chan`, whose name has no NUL character. -/
theorem resource_names_witness :
    NulFree demoPub.1._senderName ∧ NulFree demoSub.1._receiverName ∧
    ((c_str (outMapName demoPub.1) = c_str (inMapName demoSub.1) ∧
        c_str (outEventName demoPub.1) = c_str (inEventName demoSub.1)) ↔
      demoPub.1._senderName = demoSub.1._receiverName) :=
  ⟨by decide, by decide,
    (resource_names simOS demoPub.1 demoSub.1 emptyWorld (by decide) (by decide)).2.2.2.2.1⟩

/-- Counterexample to C7 as stated: the channel names `a\0b` and `a\0c` differ,
yet `c_str()` ends both resource names at the NUL character, so the publisher
and the subscriber hand the same pair of names (`Global\\Mapa`,
`Global\\Eventa`) to the operating system, and the subscriber's `TryConnect`
opens the publisher's objects and returns `true`. -/
theorem nul_names_collide :
    nulPub.1._senderName ≠ nulSub.1._receiverName ∧
    c_str (outMapName nulPub.1) = "Global\\Mapa" ∧
    c_str (inMapName nulSub.1) = "Global\\Mapa" ∧
    c_str (outEventName nulPub.1) = "Global\\Eventa" ∧
    c_str (inEventName nulSub.1) = "Global\\Eventa" ∧
    (TryConnect simOS 100 10 1 nulSub.1 nulSub.2).map Prod.fst = some true := by
  decide

/-! ### The `TryConnect` loop -/

theorem not_valid_iff (r : receiver) : ¬ r.valid ↔ (r._hMapIn = 0 ∨ r._hEventIn = 0) := by
  unfold receiver.valid
  constructor
  · intro h
    by_cases h1 : r._hMapIn = 0
    · exact Or.inl h1
    · by_cases h2 : r._hEventIn = 0
      · exact Or.inr h2
      · exact absurd ⟨h1, h2⟩ h
  · rintro (h | h) ⟨h1, h2⟩
    · exact h1 h
    · exact h2 h

theorem openPair_receiver {W : Type} (os : OS W) (c : BackendComm) (r : receiver) (w : W) :
    openPair os { c with _receiver := r } w = openPair os c w := rfl

theorem retryWorld_receiver {W : Type} (os : OS W) (c : BackendComm) (r : receiver) (p : Int) :
    ∀ (k : Nat) (w : W), retryWorld os { c with _receiver := r } p k w = retryWorld os c p k w
  | 0, _ => rfl
  | k + 1, w => by
    simp only [retryWorld]
    rw [retryWorld_receiver os c r p k]
    rfl

theorem retryWorld_succ {W : Type} (os : OS W) (c : BackendComm) (p : Int) (k : Nat) (w : W) :
    retryWorld os c p (k + 1) w =
      retryWorld os c p k (os.sleep_for p (openPair os c (os.steady_clock_now w).2).2) := rfl

theorem beginsBefore_shift {W : Type} (os : OS W) (c : BackendComm) (r : receiver) (p d : Int)
    (k : Nat) (w : W) :
    beginsBefore os { c with _receiver := r } p d k
        (os.sleep_for p (openPair os c (os.steady_clock_now w).2).2) ↔
      beginsBefore os c p d (k + 1) w := by
  unfold beginsBefore
  rw [retryWorld_receiver, retryWorld_succ]

theorem openedAt_shift {W : Type} (os : OS W) (c : BackendComm) (r : receiver) (p : Int)
    (k : Nat) (w : W) :
    openedAt os { c with _receiver := r } p k
        (os.sleep_for p (openPair os c (os.steady_clock_now w).2).2) =
      openedAt os c p (k + 1) w := by
  unfold openedAt
  rw [retryWorld_receiver, retryWorld_succ, openPair_receiver]

/-- What a returning loop did: it ran iterations `0 .. k-1`, all of which began
before the deadline and failed, and then either succeeded in iteration `k` or
found the deadline passed at the start of iteration `k`. -/
theorem loop_sound {W : Type} (os : OS W) (d p : Int) :
    ∀ (n : Nat) (c : BackendComm) (w : W) (b : Bool) (c1 : BackendComm) (w1 : W),
      TryConnectLoop os d p n c w = some (b, c1, w1) →
      ∃ k, k < n ∧
        (∀ j, j < k → beginsBefore os c p d j w ∧ ¬ (openedAt os c p j w).valid) ∧
        (b = true → beginsBefore os c p d k w ∧ (openedAt os c p k w).valid ∧
          c1 = { c with _receiver := openedAt os c p k w, _isConnected := true } ∧
          w1 = (openPair os c (os.steady_clock_now (retryWorld os c p k w)).2).2) ∧
        (b = false → ¬ beginsBefore os c p d k w ∧
          w1 = (os.steady_clock_now (retryWorld os c p k w)).2 ∧
          (k = 0 → c1 = c) ∧
          (∀ k0, k = k0 + 1 → c1 = { c with _receiver := openedAt os c p k0 w })) := by
  intro n
  induction n with
  | zero => intro c w b c1 w1 h; simp [TryConnectLoop] at h
  | succ n ih =>
    intro c w b c1 w1 h
    simp only [TryConnectLoop] at h
    by_cases hb : (os.steady_clock_now w).1 < d
    · rw [if_pos hb] at h
      by_cases hv : (openPair os c (os.steady_clock_now w).2).1._hMapIn = 0 ∨
          (openPair os c (os.steady_clock_now w).2).1._hEventIn = 0
      · rw [if_pos hv] at h
        obtain ⟨k, hk, hall, ht, hf⟩ := ih _ _ _ _ _ h
        refine ⟨k + 1, by omega, ?_, ?_, ?_⟩
        · intro j hj
          cases j with
          | zero =>
            exact ⟨hb, (not_valid_iff _).2 hv⟩
          | succ j =>
            have := hall j (by omega)
            rw [beginsBefore_shift, openedAt_shift] at this
            exact this
        · intro hbt
          obtain ⟨h1, h2, h3, h4⟩ := ht hbt
          rw [beginsBefore_shift] at h1
          rw [openedAt_shift] at h2 h3
          rw [retryWorld_receiver, openPair_receiver] at h4
          exact ⟨h1, h2, h3, h4⟩
        · intro hbf
          obtain ⟨h1, h2, h3, h4⟩ := hf hbf
          rw [beginsBefore_shift] at h1
          rw [retryWorld_receiver] at h2
          refine ⟨h1, h2, by omega, ?_⟩
          intro k0 hk0
          have hk0k : k = k0 := by omega
          subst hk0k
          cases k with
          | zero => rw [h3 rfl]; rfl
          | succ k1 =>
            rw [h4 k1 rfl, openedAt_shift]
      · rw [if_neg hv] at h
        simp only [Option.some.injEq, Prod.mk.injEq] at h
        obtain ⟨h1, h2, h3⟩ := h
        refine ⟨0, by omega, by intro j hj; omega, ?_, ?_⟩
        · intro _
          exact ⟨hb, (not_iff_comm.1 (not_valid_iff _)).1 hv, h2.symm, h3.symm⟩
        · intro hbf; rw [hbf] at h1; cases h1
    · rw [if_neg hb] at h
      simp only [Option.some.injEq, Prod.mk.injEq] at h
      obtain ⟨h1, h2, h3⟩ := h
      refine ⟨0, by omega, by intro j hj; omega, ?_, ?_⟩
      · intro hbt; rw [hbt] at h1; cases h1
      · intro _
        exact ⟨hb, h3.symm, fun _ => h2.symm, by intro k0 hk0; omega⟩

/-- The loop returns `true` at iteration `k` when the iterations before it
began before the deadline and failed and iteration `k` opens a valid pair. -/
theorem loop_complete {W : Type} (os : OS W) (d p : Int) :
    ∀ (k : Nat) (c : BackendComm) (w : W),
      (∀ j, j < k → beginsBefore os c p d j w ∧ ¬ (openedAt os c p j w).valid) →
      beginsBefore os c p d k w → (openedAt os c p k w).valid →
      TryConnectLoop os d p (k + 1) c w =
        some (true, { c with _receiver := openedAt os c p k w, _isConnected := true },
          (openPair os c (os.steady_clock_now (retryWorld os c p k w)).2).2) := by
  intro k
  induction k with
  | zero =>
    intro c w _ hb hv
    have hb0 : (os.steady_clock_now w).1 < d := hb
    have hv0 : ¬ ((openPair os c (os.steady_clock_now w).2).1._hMapIn = 0 ∨
        (openPair os c (os.steady_clock_now w).2).1._hEventIn = 0) :=
      fun h => (not_valid_iff _).2 h hv
    simp only [TryConnectLoop]
    rw [if_pos hb0, if_neg hv0]
    rfl
  | succ k ih =>
    intro c w hall hb hv
    have h0 := hall 0 (by omega)
    have hb0 : (os.steady_clock_now w).1 < d := h0.1
    have hv0 : (openPair os c (os.steady_clock_now w).2).1._hMapIn = 0 ∨
        (openPair os c (os.steady_clock_now w).2).1._hEventIn = 0 :=
      (not_valid_iff _).1 h0.2
    rw [TryConnectLoop]
    simp only []
    rw [if_pos hb0, if_pos hv0]
    rw [ih]
    · rw [openedAt_shift, retryWorld_receiver, openPair_receiver, retryWorld_succ]
      rfl
    · intro j hj
      have := hall (j + 1) (by omega)
      rw [beginsBefore_shift, openedAt_shift]
      exact this
    · rw [beginsBefore_shift]; exact hb
    · rw [openedAt_shift]; exact hv

/-- C3 (`TryConnect` on an endpoint that starts disconnected), for every
operating system, timeout and poll interval: some run of `TryConnect` returns
`true` exactly when some executed iteration (one begun before the deadline,
all earlier ones having begun before it and failed) opened both the segment
and the signal with non-null handles; whenever it returns `true`,
`isConnected()` is `true` and the stored receiver handles are the two handles
opened in that iteration; whenever it returns `false`, `isConnected()` is
still `false`. -/
theorem TryConnect_spec {W : Type} (os : OS W) (c : BackendComm) (timeout iterDelay : Int)
    (w : W) (hdisc : isConnected c = false) :
    ((∃ fuel c1 w1, TryConnect os timeout iterDelay fuel c w = some (true, c1, w1)) ↔
      ∃ k, iterationRuns os c iterDelay ((os.steady_clock_now w).1 + timeout * ticksPerMs) k
            (os.steady_clock_now w).2 ∧
          (openedAt os c iterDelay k (os.steady_clock_now w).2).valid) ∧
    (∀ fuel c1 w1, TryConnect os timeout iterDelay fuel c w = some (true, c1, w1) →
      isConnected c1 = true ∧
      ∃ k, iterationRuns os c iterDelay ((os.steady_clock_now w).1 + timeout * ticksPerMs) k
            (os.steady_clock_now w).2 ∧
          (openedAt os c iterDelay k (os.steady_clock_now w).2).valid ∧
          c1._receiver = openedAt os c iterDelay k (os.steady_clock_now w).2) ∧
    (∀ fuel c1 w1, TryConnect os timeout iterDelay fuel c w = some (false, c1, w1) →
      isConnected c1 = false) := by
  have key : ∀ fuel c1 w1, TryConnect os timeout iterDelay fuel c w = some (true, c1, w1) →
      isConnected c1 = true ∧
      ∃ k, iterationRuns os c iterDelay ((os.steady_clock_now w).1 + timeout * ticksPerMs) k
            (os.steady_clock_now w).2 ∧
          (openedAt os c iterDelay k (os.steady_clock_now w).2).valid ∧
          c1._receiver = openedAt os c iterDelay k (os.steady_clock_now w).2 := by
    intro fuel c1 w1 h
    obtain ⟨k, _, hall, ht, _⟩ := loop_sound os _ _ _ _ _ _ _ _ h
    obtain ⟨h1, h2, h3, _⟩ := ht rfl
    subst h3
    exact ⟨rfl, k, ⟨hall, h1⟩, h2, rfl⟩
  refine ⟨⟨?_, ?_⟩, key, ?_⟩
  · rintro ⟨fuel, c1, w1, h⟩
    obtain ⟨_, k, h1, h2, _⟩ := key fuel c1 w1 h
    exact ⟨k, h1, h2⟩
  · rintro ⟨k, ⟨hall, hb⟩, hv⟩
    exact ⟨k + 1, _, _, loop_complete os _ _ k c _ hall hb hv⟩
  · intro fuel c1 w1 h
    obtain ⟨k, _, _, _, hf⟩ := loop_sound os _ _ _ _ _ _ _ _ h
    obtain ⟨_, _, h3, h4⟩ := hf rfl
    cases k with
    | zero => rw [h3 rfl]; exact hdisc
    | succ k0 => rw [h4 k0 rfl]; exact hdisc

/-- Witness of C3: the statement at the simulated subscriber `demoSub`, which
starts disconnected, with a timeout of 100 ms and a poll interval of 10 ms. -/
theorem TryConnect_spec_witness :
    isConnected demoSub.1 = false ∧
    ((∃ fuel c1 w1, TryConnect simOS 100 10 fuel demoSub.1 demoSub.2 = some (true, c1, w1)) ↔
      ∃ k, iterationRuns simOS demoSub.1 10
            ((simOS.steady_clock_now demoSub.2).1 + 100 * ticksPerMs) k
            (simOS.steady_clock_now demoSub.2).2 ∧
          (openedAt simOS demoSub.1 10 k (simOS.steady_clock_now demoSub.2).2).valid) :=
  ⟨by decide, (TryConnect_spec simOS demoSub.1 100 10 demoSub.2 (by decide)).1⟩

/-! ### `Send`, `WaitObject`, `ReceivePoint` -/

theorem simMapViewOfFile_frame (h : HANDLE) (a oh ol : DWORD) (n : SIZE_T) (w : SimWorld) :
    (simMapViewOfFile h a oh ol n w).2.sections = w.sections ∧
    (simMapViewOfFile h a oh ol n w).2.events = w.events ∧
    (simMapViewOfFile h a oh ol n w).2.handles = w.handles ∧
    (simMapViewOfFile h a oh ol n w).2.clock = w.clock := by
  unfold simMapViewOfFile
  split
  · exact ⟨rfl, rfl, rfl, rfl⟩
  · split
    · split
      · exact ⟨rfl, rfl, rfl, rfl⟩
      · split
        · split <;> exact ⟨rfl, rfl, rfl, rfl⟩
        · exact ⟨rfl, rfl, rfl, rfl⟩
    · exact ⟨rfl, rfl, rfl, rfl⟩

/-- C2 (`Send`), for every payload, publisher state and operating system:
when `MapViewOfFile` on the write view returns null, `Send` makes no further
call (no `memcpy`, no `SetEvent`), so that in the simulated world the section
contents and the event states are unchanged; when it returns a non-null
address, `Send` copies `sizeof(T)` bytes of the payload to that address with
one `memcpy` and then calls `SetEvent` on the sender's event exactly once. -/
theorem Send_spec {W : Type} (os : OS W) (sizeofT : Nat) (c : BackendComm)
    (payload : List Byte) (w : W) (log : List Call) (sw : SimWorld) :
    ((os.MapViewOfFile c._sender._hMapOut c._mapViewConfS._accessMode
          c._mapViewConfS._fileOffsetH c._mapViewConfS._fileOffsetL c._mapViewConfS._nBytes w).1 = 0 →
      Send (logOS os) sizeofT c payload (w, log) =
        ((os.MapViewOfFile c._sender._hMapOut c._mapViewConfS._accessMode
            c._mapViewConfS._fileOffsetH c._mapViewConfS._fileOffsetL c._mapViewConfS._nBytes w).2,
          log ++ [Call.MapViewOfFile c._sender._hMapOut c._mapViewConfS._accessMode
            c._mapViewConfS._fileOffsetH c._mapViewConfS._fileOffsetL c._mapViewConfS._nBytes 0])) ∧
    (∀ ptr, ptr ≠ 0 →
      (os.MapViewOfFile c._sender._hMapOut c._mapViewConfS._accessMode
          c._mapViewConfS._fileOffsetH c._mapViewConfS._fileOffsetL c._mapViewConfS._nBytes w).1 = ptr →
      Send (logOS os) sizeofT c payload (w, log) =
        (os.SetEvent c._sender._hEventOut (os.memcpy ptr payload sizeofT
            (os.MapViewOfFile c._sender._hMapOut c._mapViewConfS._accessMode
              c._mapViewConfS._fileOffsetH c._mapViewConfS._fileOffsetL
              c._mapViewConfS._nBytes w).2),
          log ++ [Call.MapViewOfFile c._sender._hMapOut c._mapViewConfS._accessMode
              c._mapViewConfS._fileOffsetH c._mapViewConfS._fileOffsetL c._mapViewConfS._nBytes ptr,
            Call.memcpy ptr payload sizeofT,
            Call.SetEvent c._sender._hEventOut])) ∧
    ((simOS.MapViewOfFile c._sender._hMapOut c._mapViewConfS._accessMode
          c._mapViewConfS._fileOffsetH c._mapViewConfS._fileOffsetL c._mapViewConfS._nBytes sw).1 = 0 →
      (Send simOS sizeofT c payload sw).sections = sw.sections ∧
      (Send simOS sizeofT c payload sw).events = sw.events) := by
  refine ⟨?_, ?_, ?_⟩
  · intro h
    simp [Send, logOS, h]
  · intro ptr hp h
    subst h
    simp [Send, logOS, hp]
  · intro h
    have hf := simMapViewOfFile_frame c._sender._hMapOut c._mapViewConfS._accessMode
      c._mapViewConfS._fileOffsetH c._mapViewConfS._fileOffsetL c._mapViewConfS._nBytes sw
    simp only [Send, h, ne_eq, not_true_eq_false, if_false]
    exact ⟨hf.1, hf.2.1⟩

/-- C4 (as the code behaves): `WaitObject(ms)` issues
`WaitForSingleObject(_hEventIn, INFINITE)` whatever `ms` is.  At the connected
simulated subscriber, whose event is not signaled, a wait of 1000 ms on the
event would return `WAIT_TIMEOUT`, but `WaitObject(1000)` never returns. -/
theorem WaitObject_ignores_timeout :
    (∀ (W : Type) (os : OS W) (c : BackendComm) (ms : DWORD) (w : W) (log : List Call),
      WaitObject (logOS os) c ms (w, log) =
        (os.WaitForSingleObject c._receiver._hEventIn INFINITE w).map
          (fun r => (r.1, r.2, log ++ [Call.WaitForSingleObject c._receiver._hEventIn INFINITE r.1]))) ∧
    isConnected demoConn.1 = true ∧
    signaledOf demoConn.2 demoConn.1._receiver._hEventIn = some false ∧
    (simOS.WaitForSingleObject demoConn.1._receiver._hEventIn 1000 demoConn.2).map Prod.fst =
      some WAIT_TIMEOUT ∧
    WaitObject simOS demoConn.1 1000 demoConn.2 = none := by
  refine ⟨?_, by decide, by decide, by decide, by decide⟩
  intro W os c ms w log
  rfl

/-- C9 (configuration isolation), for every access mode, offset words and
length: after a `TryConnect` that returned `true`, `SetreceiverViewConfig`
leaves the endpoint connected and the stored receiver handles unchanged, and
the next `ReceivePoint` issues exactly one call, `MapViewOfFile` on the stored
segment handle with the newly set access mode, offset high word, offset low
word and length, returning its result. -/
theorem view_config_isolation {W : Type} (os : OS W) (timeout iterDelay : Int) (fuel : Nat)
    (c0 c1 : BackendComm) (w0 w1 : W)
    (hconn : TryConnect os timeout iterDelay fuel c0 w0 = some (true, c1, w1))
    (accessMode fileOffsetH fileOffsetL : DWORD) (nBytes : SIZE_T) (w : W) (log : List Call) :
    isConnected (SetreceiverViewConfig c1 accessMode fileOffsetH fileOffsetL nBytes) = true ∧
    (SetreceiverViewConfig c1 accessMode fileOffsetH fileOffsetL nBytes)._receiver = c1._receiver ∧
    ReceivePoint (logOS os)
        (SetreceiverViewConfig c1 accessMode fileOffsetH fileOffsetL nBytes) (w, log) =
      ((os.MapViewOfFile c1._receiver._hMapIn accessMode fileOffsetH fileOffsetL nBytes w).1,
        (os.MapViewOfFile c1._receiver._hMapIn accessMode fileOffsetH fileOffsetL nBytes w).2,
        log ++ [Call.MapViewOfFile c1._receiver._hMapIn accessMode fileOffsetH fileOffsetL nBytes
          (os.MapViewOfFile c1._receiver._hMapIn accessMode fileOffsetH fileOffsetL nBytes w).1]) := by
  obtain ⟨k, _, _, ht, _⟩ := loop_sound os _ _ _ _ _ _ _ _ hconn
  obtain ⟨_, _, h3, _⟩ := ht rfl
  subst h3
  exact ⟨rfl, rfl, rfl⟩

/-- Witness of C9: the statement at the simulated subscriber after its
`TryConnect` returned `true`, for a read view of 2 bytes at offset 0. -/
theorem view_config_isolation_witness :
    TryConnect simOS 100 10 1 demoSub.1 demoSub.2 = some (true, demoConn.1, demoConn.2) ∧
    isConnected (SetreceiverViewConfig demoConn.1 FILE_MAP_READ 0 0 2) = true ∧
    (SetreceiverViewConfig demoConn.1 FILE_MAP_READ 0 0 2)._receiver = demoConn.1._receiver ∧
    ReceivePoint (logOS simOS) (SetreceiverViewConfig demoConn.1 FILE_MAP_READ 0 0 2)
        (demoConn.2, []) =
      ((simOS.MapViewOfFile demoConn.1._receiver._hMapIn FILE_MAP_READ 0 0 2 demoConn.2).1,
        (simOS.MapViewOfFile demoConn.1._receiver._hMapIn FILE_MAP_READ 0 0 2 demoConn.2).2,
        [] ++ [Call.MapViewOfFile demoConn.1._receiver._hMapIn FILE_MAP_READ 0 0 2
          (simOS.MapViewOfFile demoConn.1._receiver._hMapIn FILE_MAP_READ 0 0 2 demoConn.2).1]) :=
  ⟨by decide, view_config_isolation simOS 100 10 1 demoSub.1 demoConn.1 demoSub.2 demoConn.2
    (by decide) FILE_MAP_READ 0 0 2 demoConn.2 []⟩

/-! ### Immediate success -/

/-- C5 (amended): for every poll interval, and every timeout for which the
clock reading taken by the first evaluation of the loop condition lies before
the deadline, if the segment and the signal can both be opened at that moment
then `TryConnect` returns `true` in its first iteration, having made exactly
four calls (two clock readings and the two opens) and no `sleep_for`; the
stored handles are the two just opened and the endpoint is connected. -/
theorem TryConnect_immediate {W : Type} (os : OS W) (c : BackendComm)
    (timeout iterDelay : Int) (fuel : Nat) (w : W) (log : List Call)
    (hbefore : (os.steady_clock_now (os.steady_clock_now w).2).1 <
      (os.steady_clock_now w).1 + timeout * ticksPerMs)
    (hopen : (openPair os c (os.steady_clock_now (os.steady_clock_now w).2).2).1.valid) :
    TryConnect (logOS os) timeout iterDelay (fuel + 1) c (w, log) =
      some (true,
        { c with
          _receiver := (openPair os c (os.steady_clock_now (os.steady_clock_now w).2).2).1,
          _isConnected := true },
        (openPair os c (os.steady_clock_now (os.steady_clock_now w).2).2).2,
        log ++ [Call.steady_clock_now (os.steady_clock_now w).1,
          Call.steady_clock_now (os.steady_clock_now (os.steady_clock_now w).2).1,
          Call.OpenFileMappingA c._receiverConfig._fileMapAccessMode
            c._receiverConfig._fileMapInheritHandle (c_str (inMapName c))
            (openPair os c (os.steady_clock_now (os.steady_clock_now w).2).2).1._hMapIn,
          Call.OpenEventA c._receiverConfig._eventAccessMode
            c._receiverConfig._eventInheritHandle (c_str (inEventName c))
            (openPair os c (os.steady_clock_now (os.steady_clock_now w).2).2).1._hEventIn]) := by
  have hv : ¬ ((openPair os c (os.steady_clock_now (os.steady_clock_now w).2).2).1._hMapIn = 0 ∨
      (openPair os c (os.steady_clock_now (os.steady_clock_now w).2).2).1._hEventIn = 0) :=
    fun h => (not_valid_iff _).2 h hopen
  simp only [openPair] at hv
  simp only [TryConnect, TryConnectLoop, logOS, openPair]
  rw [if_pos hbefore, if_neg hv]
  simp

/-- Witness of C5 (amended): the statement at the simulated subscriber
`demoSub`, whose channel exists, with a timeout of 100 ms. -/
theorem TryConnect_immediate_witness :
    TryConnect (logOS simOS) 100 10 (0 + 1) demoSub.1 (demoSub.2, []) =
      some (true,
        { demoSub.1 with
          _receiver := (openPair simOS demoSub.1
            (simOS.steady_clock_now (simOS.steady_clock_now demoSub.2).2).2).1,
          _isConnected := true },
        (openPair simOS demoSub.1 (simOS.steady_clock_now (simOS.steady_clock_now demoSub.2).2).2).2,
        [] ++ [Call.steady_clock_now (simOS.steady_clock_now demoSub.2).1,
          Call.steady_clock_now (simOS.steady_clock_now (simOS.steady_clock_now demoSub.2).2).1,
          Call.OpenFileMappingA demoSub.1._receiverConfig._fileMapAccessMode
            demoSub.1._receiverConfig._fileMapInheritHandle (c_str (inMapName demoSub.1))
            (openPair simOS demoSub.1
              (simOS.steady_clock_now (simOS.steady_clock_now demoSub.2).2).2).1._hMapIn,
          Call.OpenEventA demoSub.1._receiverConfig._eventAccessMode
            demoSub.1._receiverConfig._eventInheritHandle (c_str (inEventName demoSub.1))
            (openPair simOS demoSub.1
              (simOS.steady_clock_now (simOS.steady_clock_now demoSub.2).2).2).1._hEventIn]) :=
  TryConnect_immediate simOS demoSub.1 100 10 0 demoSub.2 [] (by decide) (by decide)

theorem loop_true_begins {W : Type} (os : OS W) (d p : Int) (n : Nat) (c c1 : BackendComm)
    (w w1 : W) (h : TryConnectLoop os d p n c w = some (true, c1, w1)) :
    (os.steady_clock_now w).1 < d := by
  obtain ⟨k, _, hall, ht, _⟩ := loop_sound os _ _ _ _ _ _ _ _ h
  cases k with
  | zero => exact (ht rfl).1
  | succ k => exact (hall 0 (by omega)).1

/-- Counterexample to C5 as stated: the segment and the signal of the
subscriber's channel exist and open with valid handles, yet with a timeout of
0 ms `TryConnect` returns `false` without running an iteration, and no run of
it returns `true`. -/
theorem TryConnect_zero_timeout :
    (openPair simOS demoSub.1 demoSub.2).1.valid ∧
    TryConnect simOS 0 10 1 demoSub.1 demoSub.2 = some (false, demoSub.1, demoSub.2) ∧
    ¬ ∃ fuel c1 w1, TryConnect simOS 0 10 fuel demoSub.1 demoSub.2 = some (true, c1, w1) := by
  refine ⟨by decide, by decide, ?_⟩
  rintro ⟨fuel, c1, w1, h⟩
  have := loop_true_begins simOS _ _ _ _ _ _ _ h
  revert this
  decide

/-! ### Timeout bound -/

/-- With a clock that paces the loop and a pair that never opens, the loop
returns `false` within `n + 1` evaluations of its condition when the deadline
is at most `n` steps of `q` ticks away; the clock then reads what it read at
the start or less than `Q` ticks past the deadline. -/
theorem loop_times_out {W : Type} (os : OS W) (d p q Q : Int) :
    ∀ (n : Nat) (c : BackendComm) (w : W),
      PacedClock os c p d q Q →
      d - (os.steady_clock_now w).1 ≤ (n : Int) * q →
      (∀ k, ¬ (openedAt os c p k w).valid) →
      ∃ c1 w1, TryConnectLoop os d p (n + 1) c w = some (false, c1, w1) ∧
        ((os.steady_clock_now w1).1 = (os.steady_clock_now w).1 ∨
          (os.steady_clock_now w1).1 < d + Q) := by
  intro n
  induction n with
  | zero =>
    intro c w hclock hd _
    have hnb : ¬ (os.steady_clock_now w).1 < d := by
      simp only [Nat.cast_zero, zero_mul] at hd
      omega
    refine ⟨c, (os.steady_clock_now w).2, ?_, ?_⟩
    · simp only [TryConnectLoop]
      rw [if_neg hnb]
    · left; rw [hclock.1]
  | succ n ih =>
    intro c w hclock hd hnever
    by_cases hb : (os.steady_clock_now w).1 < d
    · have hv : (openPair os c (os.steady_clock_now w).2).1._hMapIn = 0 ∨
          (openPair os c (os.steady_clock_now w).2).1._hEventIn = 0 :=
        (not_valid_iff _).1 (hnever 0)
      have hadv : q ≤ (os.steady_clock_now
            (os.sleep_for p (openPair os c (os.steady_clock_now w).2).2)).1 -
            (os.steady_clock_now w).1 ∧
          (os.steady_clock_now
            (os.sleep_for p (openPair os c (os.steady_clock_now w).2).2)).1 -
            (os.steady_clock_now w).1 ≤ Q := by
        rw [hclock.1 w]
        exact hclock.2 w hb
      have hd1 : d - (os.steady_clock_now
          (os.sleep_for p (openPair os c (os.steady_clock_now w).2).2)).1 ≤ (n : Int) * q := by
        have : ((n + 1 : Nat) : Int) * q = (n : Int) * q + q := by
          push_cast; ring
        rw [this] at hd
        omega
      obtain ⟨c1, w1, h1, h2⟩ := ih
        { c with _receiver := (openPair os c (os.steady_clock_now w).2).1 }
        (os.sleep_for p (openPair os c (os.steady_clock_now w).2).2) hclock hd1
        (by intro k; rw [openedAt_shift]; exact hnever (k + 1))
      refine ⟨c1, w1, ?_, ?_⟩
      · rw [TryConnectLoop]
        simp only []
        rw [if_pos hb, if_pos hv]
        exact h1
      · right
        rcases h2 with h2 | h2
        · rw [h2]; omega
        · exact h2
    · refine ⟨c, (os.steady_clock_now w).2, ?_, ?_⟩
      · simp only [TryConnectLoop]
        rw [if_neg hb]
      · left; rw [hclock.1]

/-- C6 (amended): for every timeout `T` and every poll interval `P`, with a
clock that one failed iteration begun before the deadline moves forward by at
least `q > 0` and at most `Q` ticks (`q = Q = P` when the clock advances
exactly by the poll interval on each sleep), `TryConnect` against a channel
whose pair is never opened terminates, returns `false`, and does so with at
most `max(T, 0)` milliseconds plus `Q` ticks of clock time elapsed; and no
run of it returns `true`.  A clock with a largest reading can pace the loop
in this way only when the deadline lies within its range. -/
theorem TryConnect_timeout_bound {W : Type} (os : OS W) (c : BackendComm)
    (timeout iterDelay q Q : Int) (w : W) (hq : 0 < q) (hqQ : q ≤ Q)
    (hclock : PacedClock os c iterDelay
      ((os.steady_clock_now w).1 + timeout * ticksPerMs) q Q)
    (hnever : ∀ k, ¬ (openedAt os c iterDelay k (os.steady_clock_now w).2).valid) :
    (∃ fuel c1 w1, TryConnect os timeout iterDelay fuel c w = some (false, c1, w1) ∧
      (os.steady_clock_now w1).1 - (os.steady_clock_now w).1 ≤
        max timeout 0 * ticksPerMs + Q) ∧
    (¬ ∃ fuel c1 w1, TryConnect os timeout iterDelay fuel c w = some (true, c1, w1)) := by
  have htpm : (0 : Int) < ticksPerMs := by decide
  constructor
  · have h0 : (0 : Int) ≤ max timeout 0 * ticksPerMs :=
      Int.mul_nonneg (le_max_right _ _) htpm.le
    have h5 : timeout * ticksPerMs ≤ max timeout 0 * ticksPerMs :=
      Int.mul_le_mul_of_nonneg_right (le_max_left _ _) htpm.le
    have hdiv : max timeout 0 * ticksPerMs ≤
        (((max timeout 0 * ticksPerMs / q).toNat + 1 : Nat) : Int) * q := by
      have hnn : 0 ≤ max timeout 0 * ticksPerMs / q := Int.ediv_nonneg h0 hq.le
      push_cast
      rw [Int.toNat_of_nonneg hnn]
      have h1 := Int.ediv_add_emod (max timeout 0 * ticksPerMs) q
      have h2 := Int.emod_lt_of_pos (max timeout 0 * ticksPerMs) hq
      have h3 : (max timeout 0 * ticksPerMs / q + 1) * q =
          q * (max timeout 0 * ticksPerMs / q) + q := by ring
      rw [h3]
      omega
    have hd : ((os.steady_clock_now w).1 + timeout * ticksPerMs) -
        (os.steady_clock_now (os.steady_clock_now w).2).1 ≤
        (((max timeout 0 * ticksPerMs / q).toNat + 1 : Nat) : Int) * q := by
      rw [hclock.1]
      omega
    obtain ⟨c1, w1, h1, h2⟩ := loop_times_out os _ iterDelay q Q _ c _ hclock hd hnever
    refine ⟨(max timeout 0 * ticksPerMs / q).toNat + 1 + 1, c1, w1, h1, ?_⟩
    rw [hclock.1] at h2
    rcases h2 with h2 | h2
    · rw [h2]; omega
    · omega
  · rintro ⟨fuel, c1, w1, h⟩
    obtain ⟨k, _, _, ht, _⟩ := loop_sound os _ _ _ _ _ _ _ _ h
    exact hnever k (ht rfl).2.1

theorem simOpenFileMappingA_frame (a : DWORD) (ih : Bool) (name : String) (w : SimWorld) :
    (simOpenFileMappingA a ih name w).2.sections = w.sections ∧
    (simOpenFileMappingA a ih name w).2.events = w.events ∧
    (simOpenFileMappingA a ih name w).2.views = w.views ∧
    (simOpenFileMappingA a ih name w).2.clock = w.clock := by
  unfold simOpenFileMappingA
  split
  · exact ⟨rfl, rfl, rfl, rfl⟩
  · split <;> exact ⟨rfl, rfl, rfl, rfl⟩

theorem simOpenEventA_frame (a : DWORD) (ih : Bool) (name : String) (w : SimWorld) :
    (simOpenEventA a ih name w).2.sections = w.sections ∧
    (simOpenEventA a ih name w).2.events = w.events ∧
    (simOpenEventA a ih name w).2.views = w.views ∧
    (simOpenEventA a ih name w).2.clock = w.clock := by
  unfold simOpenEventA
  split
  · exact ⟨rfl, rfl, rfl, rfl⟩
  · split <;> exact ⟨rfl, rfl, rfl, rfl⟩

theorem simOpenFileMappingA_none (a : DWORD) (ih : Bool) (name : String) (w : SimWorld)
    (h : findSection name w.sections = none) : (simOpenFileMappingA a ih name w).1 = 0 := by
  unfold simOpenFileMappingA
  split
  · rfl
  · simp only [h]

/-- The two opens and the sleep of one iteration in the simulated world with
the 64-bit clock: the sections are untouched and the clock field advances by
the delay. -/
theorem sim64_iteration (c : BackendComm) (p : Int) (w : SimWorld) :
    (simOS64.sleep_for p (openPair simOS64 c w).2).sections = w.sections ∧
    (simOS64.sleep_for p (openPair simOS64 c w).2).clock = w.clock + max p 0 * ticksPerMs := by
  have hs : (simOS64.sleep_for p (openPair simOS64 c w).2) =
      simSleepFor p (simOpenEventA c._receiverConfig._eventAccessMode
        c._receiverConfig._eventInheritHandle (c_str (inEventName c))
        (simOpenFileMappingA c._receiverConfig._fileMapAccessMode
          c._receiverConfig._fileMapInheritHandle (c_str (inMapName c)) w).2).2 := rfl
  rw [hs]
  constructor
  · show (simOpenEventA _ _ _ _).2.sections = _
    rw [(simOpenEventA_frame _ _ _ _).1, (simOpenFileMappingA_frame _ _ _ _).1]
  · show (simOpenEventA _ _ _ _).2.clock + _ = _
    rw [(simOpenEventA_frame _ _ _ _).2.2.2, (simOpenFileMappingA_frame _ _ _ _).2.2.2]

/-- In the simulated world a section name that does not exist is never opened
by the loop, however many iterations run. -/
theorem sim_never_opened (c : BackendComm) (p : Int) :
    ∀ (k : Nat) (w : SimWorld), findSection (c_str (inMapName c)) w.sections = none →
      ¬ (openedAt simOS64 c p k w).valid
  | 0, w, h => by
    intro hv
    exact hv.1 (simOpenFileMappingA_none _ _ _ w h)
  | k + 1, w, h => by
    have h1 : openedAt simOS64 c p (k + 1) w =
        openedAt simOS64 c p k (simOS64.sleep_for p (openPair simOS64 c w).2) := rfl
    rw [h1]
    apply sim_never_opened c p k
    rw [(sim64_iteration c p w).1]
    exact h

/-- The simulated 64-bit clock paces the loop by exactly the poll interval as
long as the deadline, and one interval past it, lie within its range. -/
theorem simOS64_paced (c : BackendComm) (p d : Int) (hp : 0 < p)
    (hd : d + p * ticksPerMs ≤ clockMax) :
    PacedClock simOS64 c p d (p * ticksPerMs) (p * ticksPerMs) := by
  refine ⟨fun _ => rfl, ?_⟩
  intro w hw
  have hw1 : min w.clock clockMax < d := hw
  have hc : (simOS64.steady_clock_now (simOS64.sleep_for p (openPair simOS64 c w).2)).1 =
      min (w.clock + max p 0 * ticksPerMs) clockMax := by
    show min (simOS64.sleep_for p (openPair simOS64 c w).2).clock clockMax = _
    rw [(sim64_iteration c p w).2]
  have hn : (simOS64.steady_clock_now w).1 = min w.clock clockMax := rfl
  rw [hc, hn, max_eq_left hp.le]
  have hpos : 0 < p * ticksPerMs := Int.mul_pos hp (by decide)
  have h1 : w.clock < d := by
    rcases min_choice w.clock clockMax with h | h
    · rw [h] at hw1; exact hw1
    · rw [h] at hw1; omega
  rw [min_eq_left (by omega), min_eq_left (by omega)]
  omega

/-- Witness of C6 (amended): the statement at the simulated endpoint
`demoPub`, whose receiver channel `none` does not exist, on the 64-bit clock,
with `T` = 100 ms and `P` = 10 ms, the clock advancing by exactly `P` on
each sleep. -/
theorem TryConnect_timeout_bound_witness :
    (0 : Int) < 10 * ticksPerMs ∧
    (∃ fuel c1 w1, TryConnect simOS64 100 10 fuel demoPub.1 demoPub.2 = some (false, c1, w1) ∧
      (simOS64.steady_clock_now w1).1 - (simOS64.steady_clock_now demoPub.2).1 ≤
        max 100 0 * ticksPerMs + 10 * ticksPerMs) ∧
    (¬ ∃ fuel c1 w1, TryConnect simOS64 100 10 fuel demoPub.1 demoPub.2 = some (true, c1, w1)) :=
  ⟨by decide, TryConnect_timeout_bound simOS64 demoPub.1 100 10 (10 * ticksPerMs)
    (10 * ticksPerMs) demoPub.2 (by decide) (le_refl _)
    (simOS64_paced demoPub.1 10 _ (by decide) (by decide))
    (fun k => sim_never_opened demoPub.1 10 k _ (by decide))⟩

/-- Counterexample to C6 as stated: on the 64-bit clock no reading exceeds
`clockMax`, and the channel `none` is never opened.  With the finite default
timeout `milliseconds::max()` and a poll interval of 100 ms the deadline lies
beyond every reading, so no amount of fuel makes `TryConnect` return; and with
`T` = -10 ms and `P` = 1 ms it returns `false` after 0 ms, which is more
than `T + P` = -9 ms. -/
theorem TryConnect_default_timeout_diverges :
    (∀ w, (simOS64.steady_clock_now w).1 ≤ clockMax) ∧
    (∀ k, ¬ (openedAt simOS64 demoPub.1 100 k (simOS64.steady_clock_now demoPub.2).2).valid) ∧
    (¬ ∃ fuel, (TryConnect simOS64 millisecondsMax 100 fuel demoPub.1 demoPub.2).isSome = true) ∧
    (∃ c1 w1, TryConnect simOS64 (-10) 1 1 demoPub.1 demoPub.2 = some (false, c1, w1) ∧
      ¬ ((simOS64.steady_clock_now w1).1 - (simOS64.steady_clock_now demoPub.2).1 ≤
        (-10 + 1) * ticksPerMs)) := by
  refine ⟨fun w => min_le_right _ _, fun k => sim_never_opened demoPub.1 100 k _ (by decide), ?_,
    ⟨demoPub.1, demoPub.2, by decide, by decide⟩⟩
  rintro ⟨fuel, h⟩
  cases hr : TryConnect simOS64 millisecondsMax 100 fuel demoPub.1 demoPub.2 with
  | none => rw [hr] at h; cases h
  | some r =>
    obtain ⟨b, c1, w1⟩ := r
    obtain ⟨k, _, _, ht, hf⟩ := loop_sound simOS64 _ _ _ _ _ _ _ _ hr
    cases b with
    | true => exact sim_never_opened demoPub.1 100 k _ (by decide) (ht rfl).2.1
    | false =>
      apply (hf rfl).1
      unfold beginsBefore
      have hle : (simOS64.steady_clock_now
          (retryWorld simOS64 demoPub.1 100 k (simOS64.steady_clock_now demoPub.2).2)).1 ≤
          clockMax := min_le_right _ _
      have hdl : clockMax <
          (simOS64.steady_clock_now demoPub.2).1 + millisecondsMax * ticksPerMs := by decide
      omega

/-! ### Connection state across public operations -/

theorem TryConnect_frame {W : Type} (os : OS W) (timeout iterDelay : Int) (fuel : Nat)
    (c c1 : BackendComm) (w w1 : W) (b : Bool)
    (h : TryConnect os timeout iterDelay fuel c w = some (b, c1, w1)) :
    c1._isConnected = (b || c._isConnected) ∧ (b = true → c1._receiver.valid) ∧
    ((∃ r, c1 = { c with _receiver := r, _isConnected := (b || c._isConnected) })) := by
  obtain ⟨k, _, _, ht, hf⟩ := loop_sound os _ _ _ _ _ _ _ _ h
  cases b with
  | true =>
    obtain ⟨_, h2, h3, _⟩ := ht rfl
    subst h3
    exact ⟨rfl, fun _ => h2, _, rfl⟩
  | false =>
    obtain ⟨_, _, h3, h4⟩ := hf rfl
    cases k with
    | zero =>
      rw [h3 rfl]
      exact ⟨by simp, fun hb => (by cases hb), c._receiver, by simp⟩
    | succ k0 =>
      rw [h4 k0 rfl]
      exact ⟨by simp, fun hb => (by cases hb),
        openedAt os c iterDelay k0 (os.steady_clock_now w).2, by simp⟩

theorem step_other {W : Type} (os : OS W) (sizeofT fuel : Nat) (op : Op)
    (s s1 : BackendComm × W) (hop : op.isTryConnect = false)
    (h : step os sizeofT fuel op s = some s1) :
    s1.1._isConnected = s.1._isConnected ∧ s1.1._receiver = s.1._receiver := by
  cases op with
  | TryConnect t d => cases hop
  | WaitObject ms =>
    simp only [step, Option.map_eq_some'] at h
    obtain ⟨r, _, hr⟩ := h
    subst hr
    exact ⟨rfl, rfl⟩
  | _ =>
    simp only [step, Option.some.injEq] at h
    subst h
    exact ⟨rfl, rfl⟩

theorem step_connected {W : Type} (os : OS W) (sizeofT fuel : Nat) (op : Op)
    (s s1 : BackendComm × W) (h : step os sizeofT fuel op s = some s1)
    (hc : s.1._isConnected = true) : s1.1._isConnected = true := by
  cases hop : op.isTryConnect with
  | false => rw [(step_other os sizeofT fuel op s s1 hop h).1]; exact hc
  | true =>
    cases op with
    | TryConnect t d =>
      simp only [step, Option.map_eq_some'] at h
      obtain ⟨r, hr, hr1⟩ := h
      obtain ⟨b, c1, w1⟩ := r
      subst hr1
      rw [(TryConnect_frame os t d fuel s.1 c1 s.2 w1 b hr).1, hc]
      simp
    | _ => cases hop

/-- C8 (connected is terminal): if `isConnected()` is `true`, it is `true`
after every sequence of public operations that returns (`SetSender`, `Send`,
every configuration setter, `TryConnect` whatever it returns, `isConnected`,
`ReceivePoint`, `WaitObject`), for every operating system. -/
theorem connected_is_terminal {W : Type} (os : OS W) (sizeofT fuel : Nat) (ops : List Op)
    (c c1 : BackendComm) (w w1 : W) (hconn : isConnected c = true)
    (hrun : run os sizeofT fuel ops (c, w) = some (c1, w1)) :
    isConnected c1 = true := by
  induction ops generalizing c w with
  | nil =>
    simp only [run, Option.some.injEq, Prod.mk.injEq] at hrun
    rw [← hrun.1]; exact hconn
  | cons op rest ih =>
    simp only [run] at hrun
    cases hs : step os sizeofT fuel op (c, w) with
    | none => rw [hs] at hrun; cases hrun
    | some s1 =>
      rw [hs] at hrun
      exact ih s1.1 s1.2 (step_connected os sizeofT fuel op (c, w) s1 hs hconn) hrun

/-- Witness of C8: the statement at the simulated connected endpoint, for a
sequence that uses every public operation, including a `TryConnect` that
returns `false` and one that returns `true`. -/
theorem connected_is_terminal_witness :
    isConnected demoLoopConn.1 = true ∧
    run simOS 4 3 demoOps (demoLoopConn.1, demoLoopConn.2) =
      some (demoAfterOps.1, demoAfterOps.2) ∧
    isConnected demoAfterOps.1 = true :=
  ⟨by decide, by decide,
    connected_is_terminal simOS 4 3 demoOps demoLoopConn.1 demoAfterOps.1 demoLoopConn.2
      demoAfterOps.2 (by decide) (by decide)⟩

/-- C10 (amended): in every state reached through public operations in which
no `TryConnect` is called on an endpoint that is already connected, starting
from a state where the invariant holds (such as a freshly constructed
endpoint), `isConnected()` being `true` implies that both stored receiver
handles are non-null. -/
theorem connected_handles_valid {W : Type} (os : OS W) (sizeofT fuel : Nat) (ops : List Op)
    (s s1 : BackendComm × W) (hinit : ConnectedValid s.1)
    (honce : NoReconnect os sizeofT fuel ops s = true)
    (hrun : run os sizeofT fuel ops s = some s1) :
    ConnectedValid s1.1 := by
  induction ops generalizing s with
  | nil =>
    simp only [run, Option.some.injEq] at hrun
    rw [← hrun]; exact hinit
  | cons op rest ih =>
    simp only [run] at hrun
    simp only [NoReconnect, Bool.and_eq_true, Bool.or_eq_true, Bool.not_eq_true'] at honce
    cases hs : step os sizeofT fuel op s with
    | none => rw [hs] at hrun; cases hrun
    | some s2 =>
      rw [hs] at hrun honce
      refine ih s2 ?_ honce.2 hrun
      cases hop : op.isTryConnect with
      | false =>
        obtain ⟨h1, h2⟩ := step_other os sizeofT fuel op s s2 hop hs
        unfold ConnectedValid isConnected
        rw [h1, h2]
        exact hinit
      | true =>
        have hdisc : s.1._isConnected = false := by
          rcases honce.1 with h | h
          · rw [hop] at h; cases h
          · exact h
        cases op with
        | TryConnect t d =>
          simp only [step, Option.map_eq_some'] at hs
          obtain ⟨r, hr, hr1⟩ := hs
          obtain ⟨b, c1, w1⟩ := r
          subst hr1
          obtain ⟨h1, h2, _⟩ := TryConnect_frame os t d fuel s.1 c1 s.2 w1 b hr
          unfold ConnectedValid isConnected
          intro hc
          simp only [] at hc
          rw [h1, hdisc, Bool.or_false] at hc
          exact h2 hc
        | _ => cases hop

/-- Witness of C10 (amended): the statement at the simulated subscriber
`demoSub`, for a sequence with a single `TryConnect`, after which the endpoint
is connected. -/
theorem connected_handles_valid_witness :
    ConnectedValid demoSub.1 ∧ NoReconnect simOS 4 3 demoOpsOnce demoSub = true ∧
    run simOS 4 3 demoOpsOnce demoSub = some demoAfterOnce ∧
    isConnected demoAfterOnce.1 = true ∧
    ConnectedValid demoAfterOnce.1 :=
  ⟨by decide, by decide, by decide, by decide,
    connected_handles_valid simOS 4 3 demoOpsOnce demoSub demoAfterOnce (by decide) (by decide)
      (by decide)⟩

/-- Counterexample to C10 as stated: the simulated subscriber connects with
`TryConnect(100 ms, 10 ms)`; a second `TryConnect(1 ms, 1 ms)` whose
`OpenFileMappingA` is refused returns `false` and leaves the endpoint with
`isConnected()` `true` and a null segment handle. -/
theorem reconnect_leaves_null_handle :
    demoReconnect.map (fun s => (isConnected s.1, s.1._receiver)) =
      some (true, { _hMapIn := 0, _hEventIn := 7 }) := by
  decide

/-! ### Round trip in the simulated world -/

theorem handle_append (w w1 : SimWorld) (l : List SimHandle) (h : HANDLE) (hd : SimHandle)
    (hw : w1.handles = w.handles ++ l) (hh : w.handle h = some hd) : w1.handle h = some hd := by
  unfold SimWorld.handle at hh ⊢
  by_cases h0 : h = 0
  · rw [if_pos h0] at hh; cases hh
  · rw [if_neg h0] at hh ⊢
    rw [hw]
    have hlt : h - 1 < w.handles.length := by
      rcases Nat.lt_or_ge (h - 1) w.handles.length with h1 | h1
      · exact h1
      · rw [List.getElem?_eq_none h1] at hh
        cases hh
    rw [List.getElem?_append_left hlt]
    exact hh

theorem newHandle_spec (w : SimWorld) (isEvent : Bool) (name : String) :
    (w.newHandle isEvent name).1 ≠ 0 ∧
    (w.newHandle isEvent name).2.handle (w.newHandle isEvent name).1 =
      some { isEvent := isEvent, name := name } ∧
    (w.newHandle isEvent name).2.handles = w.handles ++ [{ isEvent := isEvent, name := name }] := by
  refine ⟨Nat.succ_ne_zero _, ?_, rfl⟩
  unfold SimWorld.handle SimWorld.newHandle
  simp

theorem simCreateFileMappingA_handles (hf : HANDLE) (sa : Nat) (fl mh ml : DWORD)
    (name : String) (w : SimWorld) :
    (∃ l, (simCreateFileMappingA hf sa fl mh ml name w).2.handles = w.handles ++ l) ∧
    ((simCreateFileMappingA hf sa fl mh ml name w).1 ≠ 0 →
      (simCreateFileMappingA hf sa fl mh ml name w).2.handle
        (simCreateFileMappingA hf sa fl mh ml name w).1 = some { isEvent := false, name := name }) := by
  unfold simCreateFileMappingA
  split
  · exact ⟨⟨[], by simp⟩, fun h => absurd rfl h⟩
  · split
    · exact ⟨⟨_, (newHandle_spec w false name).2.2⟩, fun _ => (newHandle_spec w false name).2.1⟩
    · split
      · exact ⟨⟨[], by simp⟩, fun h => absurd rfl h⟩
      · exact ⟨⟨_, (newHandle_spec _ false name).2.2⟩, fun _ => (newHandle_spec _ false name).2.1⟩

theorem simCreateEventA_handles (sa : Nat) (mr ist : Bool) (name : String) (w : SimWorld) :
    ∃ l, (simCreateEventA sa mr ist name w).2.handles = w.handles ++ l := by
  unfold simCreateEventA
  split
  · exact ⟨[], by simp⟩
  · split
    · exact ⟨_, (newHandle_spec w true name).2.2⟩
    · exact ⟨_, (newHandle_spec _ true name).2.2⟩

theorem simOpenFileMappingA_handles (a : DWORD) (ih : Bool) (name : String) (w : SimWorld) :
    (∃ l, (simOpenFileMappingA a ih name w).2.handles = w.handles ++ l) ∧
    ((simOpenFileMappingA a ih name w).1 ≠ 0 →
      (simOpenFileMappingA a ih name w).2.handle (simOpenFileMappingA a ih name w).1 =
        some { isEvent := false, name := name }) := by
  unfold simOpenFileMappingA
  split
  · exact ⟨⟨[], by simp⟩, fun h => absurd rfl h⟩
  · split
    · exact ⟨⟨_, (newHandle_spec _ false name).2.2⟩, fun _ => (newHandle_spec _ false name).2.1⟩
    · exact ⟨⟨[], by simp⟩, fun h => absurd rfl h⟩

theorem simOpenEventA_handles (a : DWORD) (ih : Bool) (name : String) (w : SimWorld) :
    ∃ l, (simOpenEventA a ih name w).2.handles = w.handles ++ l := by
  unfold simOpenEventA
  split
  · exact ⟨[], by simp⟩
  · split
    · exact ⟨_, (newHandle_spec _ true name).2.2⟩
    · exact ⟨[], by simp⟩

theorem simMemcpy_handles (dest : LPVOID) (src : List Byte) (n : Nat) (w : SimWorld) :
    (simMemcpy dest src n w).handles = w.handles := by
  unfold simMemcpy
  split
  · split <;> rfl
  · rfl

theorem simSetEvent_frame (h : HANDLE) (w : SimWorld) :
    (simSetEvent h w).handles = w.handles ∧ (simSetEvent h w).sections = w.sections ∧
    (simSetEvent h w).views = w.views := by
  unfold simSetEvent
  split
  · split <;> exact ⟨rfl, rfl, rfl⟩
  · exact ⟨rfl, rfl, rfl⟩

theorem simWaitForSingleObject_frame (h : HANDLE) (ms : DWORD) (w w1 : SimWorld) (r : DWORD)
    (hw : simWaitForSingleObject h ms w = some (r, w1)) :
    w1.handles = w.handles ∧ w1.sections = w.sections ∧ w1.views = w.views := by
  unfold simWaitForSingleObject at hw
  split at hw
  · split at hw
    · split at hw
      · split at hw
        · simp only [Option.some.injEq, Prod.mk.injEq] at hw
          rw [← hw.2]
          split <;> exact ⟨rfl, rfl, rfl⟩
        · split at hw
          · cases hw
          · simp only [Option.some.injEq, Prod.mk.injEq] at hw
            rw [← hw.2]
            exact ⟨rfl, rfl, rfl⟩
      · simp only [Option.some.injEq, Prod.mk.injEq] at hw
        rw [← hw.2]
        exact ⟨rfl, rfl, rfl⟩
    · simp only [Option.some.injEq, Prod.mk.injEq] at hw
      rw [← hw.2]
      exact ⟨rfl, rfl, rfl⟩
  · simp only [Option.some.injEq, Prod.mk.injEq] at hw
    rw [← hw.2]
    exact ⟨rfl, rfl, rfl⟩

theorem simApply_handles (call : Call) (w : SimWorld) :
    ∃ l, (simApply call w).handles = w.handles ++ l := by
  cases call with
  | CreateFileMappingA hf sa fl mh ml name r =>
    exact (simCreateFileMappingA_handles hf sa fl mh ml name w).1
  | CreateEventA sa mr ist name r => exact simCreateEventA_handles sa mr ist name w
  | MapViewOfFile h a oh ol n r =>
    exact ⟨[], by simp [simApply, (simMapViewOfFile_frame h a oh ol n w).2.2.1]⟩
  | memcpy dest src n => exact ⟨[], by simp [simApply, simMemcpy_handles]⟩
  | SetEvent h => exact ⟨[], by simp [simApply, (simSetEvent_frame h w).1]⟩
  | OpenFileMappingA a ih name r => exact (simOpenFileMappingA_handles a ih name w).1
  | OpenEventA a ih name r => exact simOpenEventA_handles a ih name w
  | WaitForSingleObject h ms r =>
    refine ⟨[], ?_⟩
    simp only [simApply, List.append_nil]
    cases hw : simWaitForSingleObject h ms w with
    | none => rfl
    | some x => exact (simWaitForSingleObject_frame h ms w x.2 x.1 hw).1
  | steady_clock_now r => exact ⟨[], by simp [simApply]⟩
  | sleep_for d => exact ⟨[], by simp [simApply, simSleepFor]⟩

/-- A handle keeps denoting the same object in every later world. -/
theorem Later_handle (w w1 : SimWorld) (hl : Later w w1) (h : HANDLE) (hd : SimHandle)
    (hh : w.handle h = some hd) : w1.handle h = some hd := by
  obtain ⟨calls, hc⟩ := hl
  subst hc
  induction calls generalizing w with
  | nil => exact hh
  | cons call rest ih =>
    simp only [List.foldl_cons]
    apply ih
    obtain ⟨l, hl⟩ := simApply_handles call w
    exact handle_append w _ l h hd hl hh

theorem handle_ne_zero (w : SimWorld) (h : HANDLE) (hd : SimHandle)
    (hh : w.handle h = some hd) : h ≠ 0 := by
  intro h0
  unfold SimWorld.handle at hh
  rw [if_pos h0] at hh
  cases hh

theorem SetSender_handle (p : BackendComm) (w : SimWorld)
    (hne : (SetSender simOS p w).1._sender._hMapOut ≠ 0) :
    (SetSender simOS p w).2.handle (SetSender simOS p w).1._sender._hMapOut =
      some { isEvent := false, name := c_str (outMapName p) } := by
  obtain ⟨l, hl⟩ := simCreateEventA_handles p._senderConfig._eventConfig._lpEventAttributes
    p._senderConfig._eventConfig._manualReset p._senderConfig._eventConfig._initialState
    (c_str (outEventName p))
    (simCreateFileMappingA p._senderConfig._mapConfig._hFile
      p._senderConfig._mapConfig._lpFileMappingAttributes p._senderConfig._mapConfig._flProtect
      p._senderConfig._mapConfig._maxSizeH p._senderConfig._mapConfig._maxSizeL
      (c_str (outMapName p)) w).2
  exact handle_append _ _ l _ _ hl
    ((simCreateFileMappingA_handles _ _ _ _ _ (c_str (outMapName p)) w).2 hne)

theorem openPair_handle (c : BackendComm) (w : SimWorld)
    (hne : (openPair simOS c w).1._hMapIn ≠ 0) :
    (openPair simOS c w).2.handle (openPair simOS c w).1._hMapIn =
      some { isEvent := false, name := c_str (inMapName c) } := by
  obtain ⟨l, hl⟩ := simOpenEventA_handles c._receiverConfig._eventAccessMode
    c._receiverConfig._eventInheritHandle (c_str (inEventName c))
    (simOpenFileMappingA c._receiverConfig._fileMapAccessMode
      c._receiverConfig._fileMapInheritHandle (c_str (inMapName c)) w).2
  exact handle_append _ _ l _ _ hl
    ((simOpenFileMappingA_handles _ _ (c_str (inMapName c)) w).2 hne)

theorem TryConnect_handle (timeout iterDelay : Int) (fuel : Nat) (c c1 : BackendComm)
    (w w1 : SimWorld) (h : TryConnect simOS timeout iterDelay fuel c w = some (true, c1, w1)) :
    w1.handle c1._receiver._hMapIn =
      some { isEvent := false, name := c_str (inMapName c) } := by
  obtain ⟨k, _, _, ht, _⟩ := loop_sound simOS _ _ _ _ _ _ _ _ h
  obtain ⟨_, h2, h3, h4⟩ := ht rfl
  subst h3 h4
  exact openPair_handle c _ h2.1

/-- What a successful simulated `MapViewOfFile` did. -/
theorem simMapViewOfFile_success (h : HANDLE) (a oh ol : DWORD) (n : SIZE_T) (w : SimWorld)
    (hne : (simMapViewOfFile h a oh ol n w).1 ≠ 0) :
    ∃ hd bs r, w.handle h = some hd ∧ findSection hd.name w.sections = some bs ∧
      viewRange bs.length oh ol n = some r ∧
      simMapViewOfFile h a oh ol n w =
        (w.views.length + 1,
          { w with mapFaults := w.mapFaults.tail,
                   views := w.views ++ [{ name := hd.name, offset := r.1, length := r.2 }] }) := by
  unfold simMapViewOfFile at hne ⊢
  split at hne
  · exact absurd rfl hne
  · rename_i hfault
    rw [if_neg hfault]
    split at hne
    · rename_i hd hh
      split at hne
      · exact absurd rfl hne
      · rename_i hev
        split at hne
        · rename_i bs hbs
          split at hne
          · rename_i r hr
            refine ⟨hd, bs, r, hh, hbs, hr, ?_⟩
            simp only [hh, hev, hbs, hr]
            rfl
          · exact absurd rfl hne
        · exact absurd rfl hne
    · exact absurd rfl hne

theorem findSection_setSection (name : String) (bs bs1 : List Byte) :
    ∀ (secs : List (String × List Byte)), findSection name secs = some bs →
      findSection name (setSection name bs1 secs) = some bs1
  | [], h => by simp [findSection] at h
  | (n, b) :: rest, h => by
    by_cases hn : n = name
    · simp [setSection, findSection, hn]
    · simp only [findSection, if_neg hn] at h
      simp only [setSection, findSection, if_neg hn]
      exact findSection_setSection name bs bs1 rest h

theorem writeAt_zero_take (bs v : List Byte) (hlen : v.length ≤ bs.length) :
    (writeAt bs 0 v).take v.length = v := by
  unfold writeAt
  simp only [List.take_zero, List.nil_append, Nat.zero_add]
  rw [List.take_take, Nat.min_eq_left hlen, List.take_left']
  rfl

theorem view_appended (w : SimWorld) (vs : List SimView) (v : SimView)
    (hv : w.views = vs ++ [v]) : w.view (vs.length + 1) = some v := by
  unfold SimWorld.view
  simp [hv]

theorem viewRange_default (size n : Nat) (r : Nat × Nat) (h : viewRange size 0 0 n = some r) :
    r.1 = 0 ∧ n ≤ size := by
  unfold viewRange at h
  by_cases hle : 0 * 2 ^ 32 + 0 + (if n = 0 then size - (0 * 2 ^ 32 + 0) else n) ≤ size
  · simp only [if_pos hle, Option.some.injEq] at h
    rw [← h]
    refine ⟨by simp, ?_⟩
    by_cases hn : n = 0
    · omega
    · rw [if_neg hn] at hle
      omega
  · simp only [if_neg hle] at h
    cases h

theorem simOS_MapViewOfFile : simOS.MapViewOfFile = simMapViewOfFile := rfl

theorem simOS_memcpy : simOS.memcpy = simMemcpy := rfl

theorem simOS_SetEvent : simOS.SetEvent = simSetEvent := rfl

/-- The core of the round trip: once both handles denote the section `nm`, a
`Send` whose mapping succeeds followed by a wait and a successful
`ReceivePoint` shows the payload. -/
theorem roundtrip_core (sizeofT : Nat) (v : List Byte) (hv : v.length = sizeofT)
    (cp cs : BackendComm) (nm : String) (w4 w6 : SimWorld) (ms res : DWORD)
    (hP : w4.handle cp._sender._hMapOut = some { isEvent := false, name := nm })
    (hS : w4.handle cs._receiver._hMapIn = some { isEvent := false, name := nm })
    (hcpv : cp._mapViewConfS = MapViewConfig.default sizeofT)
    (hcsv : cs._mapViewConfR = MapViewConfig.defaultR sizeofT)
    (hmap : (simMapViewOfFile cp._sender._hMapOut cp._mapViewConfS._accessMode
      cp._mapViewConfS._fileOffsetH cp._mapViewConfS._fileOffsetL cp._mapViewConfS._nBytes w4).1 ≠ 0)
    (hwait : WaitObject simOS cs ms (Send simOS sizeofT cp v w4) = some (res, w6))
    (hrecv : (ReceivePoint simOS cs w6).1 ≠ 0) :
    readView (ReceivePoint simOS cs w6).2 (ReceivePoint simOS cs w6).1 sizeofT = some v := by
  -- the write
  obtain ⟨hd, bs, r, hh, hbs, hr, heq⟩ := simMapViewOfFile_success _ _ _ _ _ w4 hmap
  rw [hP] at hh
  simp only [Option.some.injEq] at hh
  subst hh
  simp only [hcpv, MapViewConfig.default] at hr heq hmap
  obtain ⟨hr1, hsz⟩ := viewRange_default _ _ _ hr
  have hsend : Send simOS sizeofT cp v w4 =
      simSetEvent cp._sender._hEventOut (simMemcpy (w4.views.length + 1) v sizeofT
        { w4 with mapFaults := w4.mapFaults.tail,
                  views := w4.views ++ [{ name := nm, offset := r.1, length := r.2 }] }) := by
    unfold Send
    simp only [hcpv, MapViewConfig.default]
    show (if (simMapViewOfFile cp._sender._hMapOut (FILE_MAP_READ ||| FILE_MAP_WRITE) 0 0
      sizeofT w4).1 ≠ 0 then _ else _) = _
    rw [if_pos hmap]
    simp only [simOS_MapViewOfFile, simOS_memcpy, simOS_SetEvent]
    rw [heq]
  have hmem : (simMemcpy (w4.views.length + 1) v sizeofT
        { w4 with mapFaults := w4.mapFaults.tail,
                  views := w4.views ++ [{ name := nm, offset := r.1, length := r.2 }] }).sections =
      setSection nm (writeAt bs 0 v) w4.sections := by
    unfold simMemcpy
    rw [view_appended _ w4.views { name := nm, offset := r.1, length := r.2 } rfl]
    simp only [hbs, hr1]
    rw [← hv, List.take_length]
  have h5s : (Send simOS sizeofT cp v w4).sections = setSection nm (writeAt bs 0 v) w4.sections := by
    rw [hsend, (simSetEvent_frame _ _).2.1, hmem]
  have h5h : (Send simOS sizeofT cp v w4).handles = w4.handles := by
    rw [hsend, (simSetEvent_frame _ _).1, simMemcpy_handles]
  -- the wait
  obtain ⟨h6h, h6s, _⟩ := simWaitForSingleObject_frame _ _ _ _ _ hwait
  have hS6 : w6.handle cs._receiver._hMapIn = some { isEvent := false, name := nm } :=
    handle_append w4 w6 [] _ _ (by rw [h6h, h5h, List.append_nil]) hS
  -- the read
  have hrecv1 : (simMapViewOfFile cs._receiver._hMapIn cs._mapViewConfR._accessMode
      cs._mapViewConfR._fileOffsetH cs._mapViewConfR._fileOffsetL cs._mapViewConfR._nBytes w6).1 ≠ 0 :=
    hrecv
  obtain ⟨hd2, bs2, r2, hh2, hbs2, hr2, heq2⟩ := simMapViewOfFile_success _ _ _ _ _ w6 hrecv1
  rw [hS6] at hh2
  simp only [Option.some.injEq] at hh2
  subst hh2
  simp only [hcsv, MapViewConfig.defaultR] at hr2 heq2
  obtain ⟨hr21, _⟩ := viewRange_default _ _ _ hr2
  have hrp : ReceivePoint simOS cs w6 =
      (w6.views.length + 1,
        { w6 with mapFaults := w6.mapFaults.tail,
                  views := w6.views ++ [{ name := nm, offset := r2.1, length := r2.2 }] }) := by
    unfold ReceivePoint
    simp only [hcsv, MapViewConfig.defaultR]
    exact heq2
  rw [hrp]
  unfold readView
  rw [view_appended _ w6.views { name := nm, offset := r2.1, length := r2.2 } rfl]
  have hfs : findSection nm w6.sections = some (writeAt bs 0 v) := by
    rw [h6s, h5s]
    exact findSection_setSection nm bs _ _ hbs
  simp only [hfs, hr21, List.drop_zero]
  rw [← hv, writeAt_zero_take bs v (by omega)]

/-- C1 (amended round trip, in the simulated world): for every payload `v` of
`sizeof(T)` bytes, a publisher whose sender handles were returned by
`SetSender` for channel name `N` and a subscriber whose receiver handles were
stored by a `TryConnect` that returned `true` for the same channel name, both
with the default view configurations, in any later world: if the
`MapViewOfFile` call of `Send(v)` succeeds, the following `WaitObject` returns
`WAIT_OBJECT_0`, and the `MapViewOfFile` call of the following `ReceivePoint`
succeeds, then the first `sizeof(T)` bytes of the region returned are exactly
the bytes of `v`. -/
theorem roundtrip (sizeofT : Nat) (v : List Byte) (hv : v.length = sizeofT)
    (p0 s0 s1 cp cs : BackendComm) (w0 w2 w3 w4 w6 : SimWorld)
    (timeout iterDelay : Int) (fuel : Nat) (ms : DWORD)
    (hname : p0._senderName = s0._receiverName)
    (hconn : TryConnect simOS timeout iterDelay fuel s0 w2 = some (true, s1, w3))
    (hcp : cp._sender = (SetSender simOS p0 w0).1._sender)
    (hcs : cs._receiver = s1._receiver)
    (hcpv : cp._mapViewConfS = MapViewConfig.default sizeofT)
    (hcsv : cs._mapViewConfR = MapViewConfig.defaultR sizeofT)
    (hlp : Later (SetSender simOS p0 w0).2 w4) (hls : Later w3 w4)
    (hmap : (simOS.MapViewOfFile cp._sender._hMapOut cp._mapViewConfS._accessMode
      cp._mapViewConfS._fileOffsetH cp._mapViewConfS._fileOffsetL cp._mapViewConfS._nBytes w4).1 ≠ 0)
    (hwait : WaitObject simOS cs ms (Send simOS sizeofT cp v w4) = some (WAIT_OBJECT_0, w6))
    (hrecv : (ReceivePoint simOS cs w6).1 ≠ 0) :
    readView (ReceivePoint simOS cs w6).2 (ReceivePoint simOS cs w6).1 sizeofT = some v := by
  have hmap1 : (simMapViewOfFile cp._sender._hMapOut cp._mapViewConfS._accessMode
      cp._mapViewConfS._fileOffsetH cp._mapViewConfS._fileOffsetL cp._mapViewConfS._nBytes w4).1 ≠ 0 :=
    hmap
  obtain ⟨hd, _, _, hh, _, _, _⟩ := simMapViewOfFile_success _ _ _ _ _ w4 hmap1
  have hne : (SetSender simOS p0 w0).1._sender._hMapOut ≠ 0 := by
    rw [← hcp]; exact handle_ne_zero w4 _ hd hh
  have hP : w4.handle cp._sender._hMapOut =
      some { isEvent := false, name := c_str (inMapName s0) } := by
    have := Later_handle _ _ hlp _ _ (SetSender_handle p0 w0 hne)
    rw [← hcp] at this
    rw [this]
    simp only [outMapName, inMapName, hname]
  have hS : w4.handle cs._receiver._hMapIn =
      some { isEvent := false, name := c_str (inMapName s0) } := by
    rw [hcs]
    exact Later_handle _ _ hls _ _ (TryConnect_handle _ _ _ _ _ _ _ hconn)
  exact roundtrip_core sizeofT v hv cp cs (c_str (inMapName s0)) w4 w6 ms WAIT_OBJECT_0 hP hS
    hcpv hcsv
    hmap1 hwait hrecv

/-- Witness of C1 (amended): the statement at the simulated publisher and
subscriber of channel `chan`, for the 4-byte payload `[1, 2, 3, 4]`. -/
theorem roundtrip_witness :
    TryConnect simOS 100 10 1 demoSub.1 demoSub.2 = some (true, demoConn.1, demoConn.2) ∧
    WaitObject simOS demoConn.1 5 (Send simOS 4 demoPub.1 [1, 2, 3, 4] demoConn.2) =
      some (WAIT_OBJECT_0, demoWaited) ∧
    (ReceivePoint simOS demoConn.1 demoWaited).1 ≠ 0 ∧
    readView (ReceivePoint simOS demoConn.1 demoWaited).2
      (ReceivePoint simOS demoConn.1 demoWaited).1 4 = some [1, 2, 3, 4] :=
  ⟨by decide, by decide, by decide,
    roundtrip 4 [1, 2, 3, 4] (by decide)
      (initial 4 "chan" "none" { _hMapIn := 0, _hEventIn := 0 }) demoSub.1 demoConn.1
      demoPub.1 demoConn.1 emptyWorld demoSub.2 demoConn.2 demoConn.2 demoWaited 100 10 1 5
      (by decide) (by decide) (by decide) (by decide) (by decide) (by decide)
      ⟨demoSubCalls, by decide⟩ ⟨[], rfl⟩ (by decide) (by decide) (by decide)⟩

/-- Counterexample to C1 as stated: a publisher and a subscriber of the same
channel with default view configurations, `TryConnect` returned `true`, in a
world whose second `MapViewOfFile` fails.  First scenario: after an earlier
`Send([9,9,9,9])`, the mapping of `Send([1,2,3,4])` fails and the send is
dropped; `WaitObject` still returns `WAIT_OBJECT_0` and `ReceivePoint` yields
a region holding `[9,9,9,9]`.  Second scenario: `Send([1,2,3,4])` succeeds,
`WaitObject` returns `WAIT_OBJECT_0`, and the mapping of `ReceivePoint` fails,
so that it yields `nullptr` and no region. -/
theorem roundtrip_fails_when_mapping_fails :
    stalePub.1._senderName = staleSub.1._receiverName ∧
    stalePub.1._mapViewConfS = MapViewConfig.default 4 ∧
    staleConn.1._mapViewConfR = MapViewConfig.defaultR 4 ∧
    TryConnect simOS 100 10 1 staleSub.1 staleSub.2 = some (true, staleConn.1, staleConn.2) ∧
    (WaitObject simOS staleConn.1 5
        (Send simOS 4 stalePub.1 [1, 2, 3, 4] (Send simOS 4 stalePub.1 [9, 9, 9, 9] staleConn.2)) =
      some (WAIT_OBJECT_0, staleWaited) ∧
     (ReceivePoint simOS staleConn.1 staleWaited).1 ≠ 0 ∧
     readView (ReceivePoint simOS staleConn.1 staleWaited).2
       (ReceivePoint simOS staleConn.1 staleWaited).1 4 = some [9, 9, 9, 9]) ∧
    (WaitObject simOS staleConn.1 5 (Send simOS 4 stalePub.1 [1, 2, 3, 4] staleConn.2) =
      some (WAIT_OBJECT_0, nullWaited) ∧
     (ReceivePoint simOS staleConn.1 nullWaited).1 = 0 ∧
     readView (ReceivePoint simOS staleConn.1 nullWaited).2
       (ReceivePoint simOS staleConn.1 nullWaited).1 4 = none) := by
  decide

end SharedMem

